import Mathlib

/-!
# eRPOf: power sequencing controller for a Raspberry Pi (MSP430F2012)

A shallow embedding of `src/MSP430/eRPOf.c`.

* The globals and the two function-local `static` shadow variables are the
  fields of `State`; the output register `P1OUT` (`RPOF_PORT`) is the field
  `port`.
* `unsigned char` variables are `Nat`; they are only ever assigned the
  constants of the source, so no reduction modulo 256 is needed.
* `int` is the 16-bit two's complement `int` of the MSP430 named in the file
  header: `int` variables are `Int`, and every store whose value can leave the
  16-bit range goes through `wrap16`.
* The input register `P1IN` is read twice by each reader; the two samples are
  arguments of the readers. The empty delay loops have no effect.
* The timer interrupt runs to completion. In a schedule (`run`) it is taken
  between whole iterations of the `while` loop: a schedule is a list of events,
  each a tick or one iteration. That is enough wherever the iterations write
  no counter. Where an iteration arms a countdown, the interrupts taken
  between its statements matter: `mainLoopIrq` and `runIrq` are the iteration
  and the loop with an interrupt point between the statements, and
  `mainLoopIrq_noIrq` ties them to `mainLoop`.
* The port is volatile, so the writes a driver call executes are observable
  even when they store the value already there: `LEDPowerWrites` and
  `RelayWrites` list them, and `LEDPower_port`, `Relay_port` tie them to the
  port value the drivers compute.
-/

namespace ERPOf

/-! ## Constants of the source -/

def LED : Nat := 0x01
def SHTDOUT : Nat := 0x02
def RELAY : Nat := 0x04
def PUSHBTN : Nat := 0x08
def SHTDIN : Nat := 0x10

def IDLE : Nat := 0
def POWERON_START : Nat := 1
def POWERON_WAIT : Nat := 2
def POWERON : Nat := 3
def POWEROFF_START : Nat := 4
def POWEROFF_WAIT : Nat := 5
def POWEROFF : Nat := 6

def FLASHTIME : Int := 50000
def PRESCALER : Int := 50000
def TURN_OFF_TIME : Int := 8
def SAFETY_STOP_TIME : Int := 200
def SAFETY_START_TIME : Int := 200

def OFF : Nat := 0
def ON : Nat := 1
def FLASH : Nat := 2

/-- Index of the `SHTDOUT` bit (`BIT1`) in the port. -/
def SHTDOUT_BIT : Nat := 1

/-! ## Machine arithmetic -/

/-- Value of a 16-bit two's complement `int` holding `x` after wrap-around. -/
def wrap16 (x : Int) : Int := (x + 32768) % 65536 - 32768

/-- The 8-bit complement `~m` as it acts on the 8-bit port register. -/
def not8 (m : Nat) : Nat := 0xFF ^^^ m

/-! ## Program state -/

/-- The globals of the program, the output port and the two static shadows. -/
structure State where
  StateMachine : Nat
  LEDStatus : Nat
  RelayStatus : Nat
  TimeFlash : Int
  PrescalerTime : Int
  OFFTimer : Int
  port : Nat
  shadowLEDStatus : Nat
  shadowRelayStatus : Nat
  deriving DecidableEq

/-- The state when the `while` loop is entered: the initialisers of the
globals, `P1OUT = 0`, and both shadows at their initial `0xFF`. -/
def powerUp : State :=
  { StateMachine := IDLE, LEDStatus := OFF, RelayStatus := OFF,
    TimeFlash := 0, PrescalerTime := 0, OFFTimer := 0,
    port := 0, shadowLEDStatus := 0xFF, shadowRelayStatus := 0xFF }

/-- The four samples of `P1IN` one loop iteration can take: two by
`readPushbutton`, two by `isRaspberryRunning`. -/
structure Inputs where
  pb1 : Nat
  pb2 : Nat
  sd1 : Nat
  sd2 : Nat
  deriving DecidableEq

/-! ## The functions of the source -/

/-- `readPushbutton`: `ON` when both samples have the `PUSHBTN` bit low. -/
def readPushbutton (in1 in2 : Nat) : Nat :=
  if in1 &&& PUSHBTN = 0 then
    if in2 &&& PUSHBTN = 0 then ON else OFF
  else OFF

/-- `isRaspberryRunning`: `OFF` when both samples have the `SHTDIN` bit low. -/
def isRaspberryRunning (in1 in2 : Nat) : Nat :=
  if in1 &&& SHTDIN = 0 then
    if in2 &&& SHTDIN = 0 then OFF else ON
  else ON

/-- `LEDPower`: render the LED target on the port. -/
def LEDPower (s : State) : State :=
  if s.shadowLEDStatus = s.LEDStatus ∧ s.TimeFlash ≠ 0 then s
  else
    let s1 : State :=
      if s.LEDStatus = ON then { s with port := s.port ||| LED }
      else if s.LEDStatus = OFF then { s with port := s.port &&& not8 LED }
      else if s.LEDStatus = FLASH then
        if s.TimeFlash = 0 then
          { s with port := s.port ^^^ LED, TimeFlash := wrap16 FLASHTIME }
        else s
      else { s with LEDStatus := OFF }
    { s1 with shadowLEDStatus := s1.LEDStatus }

/-- `Relay`: render the relay target on the port. -/
def Relay (s : State) : State :=
  if s.shadowRelayStatus = s.RelayStatus then s
  else
    let s1 : State :=
      if s.RelayStatus = ON then { s with port := s.port ||| RELAY }
      else if s.RelayStatus = OFF then { s with port := s.port &&& not8 RELAY }
      else { s with RelayStatus := OFF }
    { s1 with shadowRelayStatus := s1.RelayStatus }

/-- `powerRaspiOff`: the power-off sequence. -/
def powerRaspiOff (s : State) : State :=
  { s with LEDStatus := OFF, RelayStatus := OFF,
           port := s.port &&& not8 SHTDOUT, OFFTimer := 0 }

/-- The `switch (StateMachine)` statement of `main`, with `buttonOnOff` the
value `readPushbutton` returned and `sd1`, `sd2` the samples
`isRaspberryRunning` takes if it is called. -/
def sequencer (s : State) (buttonOnOff sd1 sd2 : Nat) : State :=
  if s.StateMachine = IDLE then
    if buttonOnOff = ON then { s with StateMachine := POWERON_START } else s
  else if s.StateMachine = POWERON_START then
    if buttonOnOff = OFF then
      { s with LEDStatus := FLASH, RelayStatus := ON,
               OFFTimer := SAFETY_START_TIME, StateMachine := POWERON_WAIT }
    else s
  else if s.StateMachine = POWERON_WAIT then
    if s.OFFTimer = 0 then
      { powerRaspiOff s with StateMachine := IDLE }
    else if isRaspberryRunning sd1 sd2 ≠ 0 then
      { s with OFFTimer := 0, LEDStatus := ON, StateMachine := POWERON }
    else s
  else if s.StateMachine = POWERON then
    if buttonOnOff = ON then { s with StateMachine := POWEROFF_START } else s
  else if s.StateMachine = POWEROFF_START then
    if buttonOnOff = OFF then
      { s with LEDStatus := FLASH, port := s.port ||| SHTDOUT,
               OFFTimer := SAFETY_STOP_TIME, StateMachine := POWEROFF_WAIT }
    else s
  else if s.StateMachine = POWEROFF_WAIT then
    if s.OFFTimer = 0 then
      { powerRaspiOff s with StateMachine := IDLE }
    else if isRaspberryRunning sd1 sd2 = 0 then
      { s with OFFTimer := TURN_OFF_TIME, StateMachine := POWEROFF }
    else s
  else if s.StateMachine = POWEROFF then
    if s.OFFTimer = 0 then
      { powerRaspiOff s with StateMachine := IDLE }
    else s
  else { s with StateMachine := IDLE }

/-- One iteration of the `while (ON)` loop of `main`. -/
def mainLoop (s : State) (i : Inputs) : State :=
  sequencer (Relay (LEDPower s)) (readPushbutton i.pb1 i.pb2) i.sd1 i.sd2

/-- `TIMERA0_ISR`: the timer interrupt handler. -/
def TIMERA0_ISR (s : State) : State :=
  let s1 : State :=
    if s.TimeFlash ≠ 0 then { s with TimeFlash := wrap16 (s.TimeFlash - 1) } else s
  if s1.OFFTimer ≠ 0 then
    if s1.PrescalerTime ≠ 0 then
      { s1 with PrescalerTime := wrap16 (s1.PrescalerTime - 1) }
    else
      let s2 : State := { s1 with PrescalerTime := wrap16 PRESCALER }
      if s2.OFFTimer ≠ 0 then { s2 with OFFTimer := wrap16 (s2.OFFTimer - 1) } else s2
  else s1

/-! ## Schedules -/

/-- An event of a schedule: a timer tick or one main-loop iteration. -/
inductive Event where
  | tick : Event
  | iter : Inputs → Event
  deriving DecidableEq

/-- The effect of one event: a tick taken between two loop iterations, or one
loop iteration during which no tick is taken. -/
def step (s : State) : Event → State
  | Event.tick => TIMERA0_ISR s
  | Event.iter i => mainLoop s i

/-- The effect of a schedule, events taken from the head of the list. -/
def run (s : State) (es : List Event) : State := es.foldl step s

/-- The state after `k` consecutive ticks. -/
def ticks (k : Nat) (s : State) : State := Nat.iterate TIMERA0_ISR k s

/-- Number of ticks in a schedule. -/
def tickCount : List Event → Nat
  | [] => 0
  | Event.tick :: es => tickCount es + 1
  | Event.iter _ :: es => tickCount es

/-- Number of main-loop iterations in a schedule. -/
def iterCount : List Event → Nat
  | [] => 0
  | Event.tick :: es => iterCount es
  | Event.iter _ :: es => iterCount es + 1

/-- Every iteration of the schedule reads the button as pressed. -/
def allPressed : List Event → Prop
  | [] => True
  | Event.tick :: es => allPressed es
  | Event.iter i :: es => readPushbutton i.pb1 i.pb2 = ON ∧ allPressed es

/-- Samples with the button line low on both reads and the confirmation line
high: button pressed, SBC running. -/
def pressedRunning : Inputs := ⟨0x10, 0x10, 0x10, 0x10⟩

/-- Samples with the button line high and the confirmation line high: button
released, SBC running. -/
def releasedRunning : Inputs := ⟨0x18, 0x18, 0x18, 0x18⟩

/-- Samples with the button line high and the confirmation line low on both
reads: button released, SBC not running. -/
def releasedStopped : Inputs := ⟨0x08, 0x08, 0x08, 0x08⟩

/-- Samples with the button line low and the confirmation line low on both
reads: button pressed, SBC not running. -/
def pressedStopped : Inputs := ⟨0x00, 0x00, 0x00, 0x00⟩

/-- A schedule holding the button over two iterations, with ticks around. -/
def holdButton : List Event :=
  [Event.tick, Event.iter pressedStopped, Event.tick, Event.iter pressedRunning, Event.tick]

/-- The state after a completed power-on from power-up: press, release, boot
confirmed, and one more iteration to render the LED. -/
def poweredOn : State :=
  run powerUp [Event.iter pressedStopped, Event.iter releasedStopped,
    Event.iter releasedRunning, Event.tick, Event.iter releasedRunning]

/-- The state shortly after a power-on request from power-up: press, release,
one more iteration without boot confirmation, one tick. The sequencer is in
`POWERON_WAIT` with the countdown running. -/
def bootWaiting : State :=
  run powerUp [Event.iter pressedStopped, Event.iter releasedStopped,
    Event.iter releasedStopped, Event.tick]

/-- A state in `POWERON_WAIT` whose safety countdown has run out. -/
def bootExpired : State :=
  { StateMachine := POWERON_WAIT, LEDStatus := FLASH, RelayStatus := ON,
    TimeFlash := 0, PrescalerTime := wrap16 PRESCALER, OFFTimer := 0,
    port := RELAY, shadowLEDStatus := FLASH, shadowRelayStatus := ON }

/-- The state shortly after a shutdown request from `poweredOn`: press,
release, one tick. The sequencer is in `POWEROFF_WAIT`. -/
def shutdownWaiting : State :=
  run poweredOn [Event.iter pressedRunning, Event.iter releasedRunning, Event.tick]

/-- The state `shutdownWaiting` with the state variable overwritten by a value
no `case` label names. -/
def corrupted : State := { shutdownWaiting with StateMachine := 7 }

/-- The state right after a power-on request from power-up: press, release.
The sequencer is in `POWERON_WAIT` with the countdown just armed at 200. -/
def bootArmed : State :=
  run powerUp [Event.iter pressedStopped, Event.iter releasedStopped]

/-- A schedule during which the SBC never reports running: iterations with
the button released and pressed, and ticks. -/
def noBoot : List Event :=
  [Event.iter releasedStopped, Event.tick, Event.iter pressedStopped, Event.tick]

/-! ## Quantities used to state the timing results -/

/-- The 16-bit pattern of an `int` value, as a natural number below 65536. -/
def pattern16 (x : Int) : Nat := (x % 65536).toNat

/-- An `int` variable holds a value of the 16-bit range (or, for the
non-negative counters of the timing results, any value below 65536). -/
def fits16 (x : Int) : Prop := -32768 ≤ x ∧ x < 65536

/-- The number of the tick at which `OFFTimer`, holding `o ≥ 1`, reaches 0 when
`PrescalerTime` holds `p`: the prescaler first runs down from `p`, then
`o - 1` whole prescaler cycles of `PRESCALER + 1` ticks follow. -/
def expiryTick (o p : Int) : Nat := pattern16 p + 1 + (o.toNat - 1) * 50001

/-- The confirmation samples `sd1`, `sd2` do not bring the confirmation the
waiting state `W` waits for: not running in `POWERON_WAIT`, running in
`POWEROFF_WAIT`. `POWEROFF` waits for no confirmation. -/
def noConfirmation (W sd1 sd2 : Nat) : Prop :=
  (W = POWERON_WAIT → isRaspberryRunning sd1 sd2 = OFF) ∧
  (W = POWEROFF_WAIT → isRaspberryRunning sd1 sd2 = ON)

/-- No iteration of the schedule brings the confirmation `W` waits for. -/
def allWaiting (W : Nat) : List Event → Prop
  | [] => True
  | Event.tick :: es => allWaiting W es
  | Event.iter i :: es => noConfirmation W i.sd1 i.sd2 ∧ allWaiting W es

instance decNoConfirmation (W sd1 sd2 : Nat) : Decidable (noConfirmation W sd1 sd2) :=
  instDecidableAnd

instance decAllWaiting (W : Nat) : (es : List Event) → Decidable (allWaiting W es)
  | [] => isTrue trivial
  | Event.tick :: es => decAllWaiting W es
  | Event.iter i :: es =>
    @instDecidableAnd _ _ (decNoConfirmation W i.sd1 i.sd2) (decAllWaiting W es)

instance decAllPressed : (es : List Event) → Decidable (allPressed es)
  | [] => isTrue trivial
  | Event.tick :: es => decAllPressed es
  | Event.iter _ :: es =>
    @instDecidableAnd _ _ (inferInstance) (decAllPressed es)

instance decFits16 (x : Int) : Decidable (fits16 x) := instDecidableAnd

/-! ## Port writes -/

/-- Index of the `LED` bit (`BIT0`) in the port. -/
def LED_BIT : Nat := 0

/-- Index of the `RELAY` bit (`BIT2`) in the port. -/
def RELAY_BIT : Nat := 2

/-- A write to the port register `RPOF_PORT`, by the kind of its statement:
`RPOF_PORT |= m`, `RPOF_PORT &= ~m` or `RPOF_PORT ^= m`. -/
inductive PortOp where
  | setBits : Nat → PortOp
  | clearBits : Nat → PortOp
  | toggleBits : Nat → PortOp
  deriving DecidableEq

/-- The port after a write. -/
def applyOp (p : Nat) : PortOp → Nat
  | PortOp.setBits m => p ||| m
  | PortOp.clearBits m => p &&& not8 m
  | PortOp.toggleBits m => p ^^^ m

/-- The writes to `RPOF_PORT` that one call of `LEDPower` executes, in order:
none on the early return, one in the `ON` and `OFF` cases, one in the `FLASH`
case when `TimeFlash == 0`, none in the `default` case. -/
def LEDPowerWrites (s : State) : List PortOp :=
  if s.shadowLEDStatus = s.LEDStatus ∧ s.TimeFlash ≠ 0 then []
  else if s.LEDStatus = ON then [PortOp.setBits LED]
  else if s.LEDStatus = OFF then [PortOp.clearBits LED]
  else if s.LEDStatus = FLASH then
    if s.TimeFlash = 0 then [PortOp.toggleBits LED] else []
  else []

/-- The writes to `RPOF_PORT` that one call of `Relay` executes, in order. -/
def RelayWrites (s : State) : List PortOp :=
  if s.shadowRelayStatus = s.RelayStatus then []
  else if s.RelayStatus = ON then [PortOp.setBits RELAY]
  else if s.RelayStatus = OFF then [PortOp.clearBits RELAY]
  else []

/-! ## Invariants of the reachable states -/

/-- The part of the invariant that concerns the sequencer: the state variable
and the relay target are in range, the relay target and the `SHTDOUT` bit are
functions of the state variable, and the countdown is within `[0, 200]` and
non-zero only in the three waiting states. -/
def SeqInv (s : State) : Prop :=
  s.StateMachine ≤ 6 ∧ s.RelayStatus ≤ 1 ∧
  (s.RelayStatus = ON ↔ 2 ≤ s.StateMachine) ∧
  (s.port.testBit SHTDOUT_BIT = true ↔ 5 ≤ s.StateMachine) ∧
  (s.OFFTimer ≠ 0 →
    s.StateMachine = POWERON_WAIT ∨ s.StateMachine = POWEROFF_WAIT ∨
      s.StateMachine = POWEROFF) ∧
  0 ≤ s.OFFTimer ∧ s.OFFTimer ≤ 200

/-- The part of the invariant that concerns the drivers: the targets are in
range, and a target that equals its shadow has been rendered on its port bit. -/
def OutInv (s : State) : Prop :=
  s.LEDStatus ≤ 2 ∧ s.RelayStatus ≤ 1 ∧
  (s.shadowRelayStatus = s.RelayStatus →
    (s.port.testBit RELAY_BIT = true ↔ s.RelayStatus = ON)) ∧
  (s.shadowLEDStatus = s.LEDStatus →
    (s.LEDStatus = ON → s.port.testBit LED_BIT = true) ∧
    (s.LEDStatus = OFF → s.port.testBit LED_BIT = false))

/-! ## More concrete states -/

/-- The state after the first loop iteration from power-up with the button
released: `IDLE`, LED target `OFF` already rendered, `TimeFlash` still 0. -/
def idleRendered : State := run powerUp [Event.iter releasedStopped]

/-- The state right after a reload of both countdowns: press, release, a tick
that reloads the prescaler, an iteration whose `LEDPower` reloads `TimeFlash`. -/
def justReloaded : State :=
  run powerUp [Event.iter pressedStopped, Event.iter releasedStopped, Event.tick,
    Event.iter releasedStopped]

/-- The state `poweredOn` with the relay target overwritten by a value that is
neither `ON` nor `OFF`; the last-rendered value is `ON` and the `RELAY` bit of
the port is set. -/
def relayStale : State := { poweredOn with RelayStatus := 7 }

/-- The power-up state with the relay target overwritten by `0xFF`, the value
the shadow starts with. -/
def relaySentinel : State := { powerUp with RelayStatus := 0xFF }

/-- The state `poweredOn` with the LED target overwritten by a value that is
none of `ON`, `OFF`, `FLASH`; the LED bit of the port is set. -/
def ledStale : State := { poweredOn with LEDStatus := 9 }

/-! ## Interrupts inside a loop iteration

`main` runs the loop with interrupts enabled, so `TIMERA0_ISR` also runs
between the statements of an iteration. The functions below are the
functions of the source again, with an interrupt point between every two
statements that `TIMERA0_ISR` can tell apart. An interrupt point has a number,
and `k n` ticks are taken at interrupt point `n`:

* 0 top of the loop, 1 to 4 inside `LEDPower`, 5 between `LEDPower` and
  `Relay`, 6 and 7 inside `Relay`, 8 between `Relay` and the `switch`
  (`readPushbutton` runs here);
* 9 to 11 in `case POWERON_START`, 12 after the test `OFFTimer == 0` of a
  waiting state (`isRaspberryRunning` runs here), 13 to 15 inside
  `powerRaspiOff`, 16 after its return, 17 and 18 in `case POWERON_WAIT`,
  19 to 21 in `case POWEROFF_START`, 22 in `case POWEROFF_WAIT`;
* 23 end of the `switch`, before the loop starts again.

The handler runs to completion, and the 16-bit accesses of `main` to the
counters are single instructions, so each statement is atomic. -/

/-- Interrupt point after `OFFTimer = SAFETY_START_TIME`. -/
def IRQ_START_ARMED : Nat := 11

/-- Interrupt point after `OFFTimer = SAFETY_STOP_TIME`. -/
def IRQ_STOP_ARMED : Nat := 21

/-- Interrupt point after `OFFTimer = TURN_OFF_TIME`. -/
def IRQ_TURN_OFF_ARMED : Nat := 22

/-- Interrupt point at the end of the `switch`. -/
def IRQ_LOOP_END : Nat := 23

/-- The state after the interrupts taken at interrupt point `n`. -/
def irq (k : Nat → Nat) (n : Nat) (s : State) : State := ticks (k n) s

/-- `LEDPower` with its interrupt points. -/
def LEDPowerIrq (k : Nat → Nat) (s : State) : State :=
  if s.shadowLEDStatus = s.LEDStatus ∧ s.TimeFlash ≠ 0 then s
  else
    let s0 : State := irq k 1 s
    let s1 : State :=
      if s0.LEDStatus = ON then { s0 with port := s0.port ||| LED }
      else if s0.LEDStatus = OFF then { s0 with port := s0.port &&& not8 LED }
      else if s0.LEDStatus = FLASH then
        if s0.TimeFlash = 0 then
          let a : State := irq k 2 s0
          let b : State := irq k 3 { a with port := a.port ^^^ LED }
          { b with TimeFlash := wrap16 FLASHTIME }
        else s0
      else { s0 with LEDStatus := OFF }
    let s2 : State := irq k 4 s1
    { s2 with shadowLEDStatus := s2.LEDStatus }

/-- `Relay` with its interrupt points. -/
def RelayIrq (k : Nat → Nat) (s : State) : State :=
  if s.shadowRelayStatus = s.RelayStatus then s
  else
    let s0 : State := irq k 6 s
    let s1 : State :=
      if s0.RelayStatus = ON then { s0 with port := s0.port ||| RELAY }
      else if s0.RelayStatus = OFF then { s0 with port := s0.port &&& not8 RELAY }
      else { s0 with RelayStatus := OFF }
    let s2 : State := irq k 7 s1
    { s2 with shadowRelayStatus := s2.RelayStatus }

/-- `powerRaspiOff` with its interrupt points. -/
def powerRaspiOffIrq (k : Nat → Nat) (s : State) : State :=
  let a : State := irq k 13 { s with LEDStatus := OFF }
  let b : State := irq k 14 { a with RelayStatus := OFF }
  let c : State := irq k 15 { b with port := b.port &&& not8 SHTDOUT }
  { c with OFFTimer := 0 }

/-- The `switch (StateMachine)` statement with its interrupt points. -/
def sequencerIrq (k : Nat → Nat) (s : State) (buttonOnOff sd1 sd2 : Nat) : State :=
  if s.StateMachine = IDLE then
    if buttonOnOff = ON then { s with StateMachine := POWERON_START } else s
  else if s.StateMachine = POWERON_START then
    if buttonOnOff = OFF then
      let a : State := irq k 9 { s with LEDStatus := FLASH }
      let b : State := irq k 10 { a with RelayStatus := ON }
      let c : State := irq k IRQ_START_ARMED { b with OFFTimer := SAFETY_START_TIME }
      { c with StateMachine := POWERON_WAIT }
    else s
  else if s.StateMachine = POWERON_WAIT then
    if s.OFFTimer = 0 then
      let a : State := irq k 16 (powerRaspiOffIrq k (irq k 12 s))
      { a with StateMachine := IDLE }
    else
      let t : State := irq k 12 s
      if isRaspberryRunning sd1 sd2 ≠ 0 then
        let a : State := irq k 17 { t with OFFTimer := 0 }
        let b : State := irq k 18 { a with LEDStatus := ON }
        { b with StateMachine := POWERON }
      else t
  else if s.StateMachine = POWERON then
    if buttonOnOff = ON then { s with StateMachine := POWEROFF_START } else s
  else if s.StateMachine = POWEROFF_START then
    if buttonOnOff = OFF then
      let a : State := irq k 19 { s with LEDStatus := FLASH }
      let b : State := irq k 20 { a with port := a.port ||| SHTDOUT }
      let c : State := irq k IRQ_STOP_ARMED { b with OFFTimer := SAFETY_STOP_TIME }
      { c with StateMachine := POWEROFF_WAIT }
    else s
  else if s.StateMachine = POWEROFF_WAIT then
    if s.OFFTimer = 0 then
      let a : State := irq k 16 (powerRaspiOffIrq k (irq k 12 s))
      { a with StateMachine := IDLE }
    else
      let t : State := irq k 12 s
      if isRaspberryRunning sd1 sd2 = 0 then
        let a : State := irq k IRQ_TURN_OFF_ARMED { t with OFFTimer := TURN_OFF_TIME }
        { a with StateMachine := POWEROFF }
      else t
  else if s.StateMachine = POWEROFF then
    if s.OFFTimer = 0 then
      let a : State := irq k 16 (powerRaspiOffIrq k (irq k 12 s))
      { a with StateMachine := IDLE }
    else s
  else { s with StateMachine := IDLE }

/-- The state in which the `switch` of an iteration starts: the drivers have
run, with the interrupts taken at interrupt points 0 to 8. -/
def driversIrq (k : Nat → Nat) (s : State) : State :=
  irq k 8 (RelayIrq k (irq k 5 (LEDPowerIrq k (irq k 0 s))))

/-- One iteration of the `while (ON)` loop with its interrupt points. -/
def mainLoopIrq (k : Nat → Nat) (s : State) (i : Inputs) : State :=
  irq k IRQ_LOOP_END
    (sequencerIrq k (driversIrq k s) (readPushbutton i.pb1 i.pb2) i.sd1 i.sd2)

/-- One loop iteration of a schedule with interrupts: the samples it reads
and the number of ticks taken at each of its interrupt points. -/
structure IrqIter where
  inputs : Inputs
  irqs : Nat → Nat

/-- The effect of a sequence of loop iterations with interrupts. -/
def runIrq (s : State) (its : List IrqIter) : State :=
  its.foldl (fun t it => mainLoopIrq it.irqs t it.inputs) s

/-- Every iteration of the sequence reads the button as pressed. -/
def allPressedIrq : List IrqIter → Prop
  | [] => True
  | it :: its => readPushbutton it.inputs.pb1 it.inputs.pb2 = ON ∧ allPressedIrq its

/-- No tick at any interrupt point. -/
def noIrq : Nat → Nat := fun _ => 0

/-- One tick at interrupt point `p`, none elsewhere. -/
def oneIrqAt (p : Nat) : Nat → Nat := fun n => if n = p then 1 else 0

/-- Two ticks at every interrupt point. -/
def twoIrqEverywhere : Nat → Nat := fun _ => 2

/-- The button held over two iterations, with two ticks at every interrupt
point of the first and none in the second. -/
def holdButtonIrq : List IrqIter :=
  [⟨pressedStopped, twoIrqEverywhere⟩, ⟨pressedRunning, noIrq⟩]

instance decAllPressedIrq : (its : List IrqIter) → Decidable (allPressedIrq its)
  | [] => isTrue trivial
  | _ :: its => @instDecidableAnd _ _ (inferInstance) (decAllPressedIrq its)

/-! ## Frame lemmas -/

theorem bit1_of_1 : Nat.testBit 1 1 = false := by decide
theorem bit1_of_4 : Nat.testBit 4 1 = false := by decide
theorem bit1_of_254 : Nat.testBit 254 1 = true := by decide
theorem bit1_of_251 : Nat.testBit 251 1 = true := by decide

theorem LEDPower_frame (s : State) :
    (LEDPower s).StateMachine = s.StateMachine ∧
    (LEDPower s).RelayStatus = s.RelayStatus ∧
    (LEDPower s).OFFTimer = s.OFFTimer ∧
    (LEDPower s).PrescalerTime = s.PrescalerTime ∧
    (LEDPower s).shadowRelayStatus = s.shadowRelayStatus ∧
    (LEDPower s).port.testBit SHTDOUT_BIT = s.port.testBit SHTDOUT_BIT := by
  unfold LEDPower
  split_ifs <;> simp [SHTDOUT_BIT, LED, not8, Nat.testBit_lor, Nat.testBit_land,
    Nat.testBit_xor, bit1_of_1, bit1_of_254]

theorem Relay_frame (s : State) :
    (Relay s).StateMachine = s.StateMachine ∧
    (Relay s).LEDStatus = s.LEDStatus ∧
    (Relay s).OFFTimer = s.OFFTimer ∧
    (Relay s).PrescalerTime = s.PrescalerTime ∧
    (Relay s).TimeFlash = s.TimeFlash ∧
    (Relay s).shadowLEDStatus = s.shadowLEDStatus ∧
    (Relay s).port.testBit SHTDOUT_BIT = s.port.testBit SHTDOUT_BIT ∧
    (s.RelayStatus = ON → (Relay s).RelayStatus = ON) := by
  unfold Relay
  split_ifs <;> simp_all [SHTDOUT_BIT, RELAY, not8, Nat.testBit_lor, Nat.testBit_land,
    bit1_of_4, bit1_of_251]

theorem TIMERA0_ISR_frame (s : State) :
    (TIMERA0_ISR s).StateMachine = s.StateMachine ∧
    (TIMERA0_ISR s).LEDStatus = s.LEDStatus ∧
    (TIMERA0_ISR s).RelayStatus = s.RelayStatus ∧
    (TIMERA0_ISR s).port = s.port ∧
    (TIMERA0_ISR s).shadowLEDStatus = s.shadowLEDStatus ∧
    (TIMERA0_ISR s).shadowRelayStatus = s.shadowRelayStatus := by
  unfold TIMERA0_ISR
  simp only []
  split_ifs <;> simp

/-- The drivers leave the sequencer variables to the `switch` as they were. -/
theorem drivers_frame (s : State) :
    (Relay (LEDPower s)).StateMachine = s.StateMachine ∧
    (Relay (LEDPower s)).OFFTimer = s.OFFTimer ∧
    (Relay (LEDPower s)).PrescalerTime = s.PrescalerTime ∧
    (Relay (LEDPower s)).port.testBit SHTDOUT_BIT = s.port.testBit SHTDOUT_BIT ∧
    (s.RelayStatus = ON → (Relay (LEDPower s)).RelayStatus = ON) := by
  have hL := LEDPower_frame s
  have hR := Relay_frame (LEDPower s)
  refine ⟨?_, ?_, ?_, ?_, ?_⟩
  · rw [hR.1, hL.1]
  · rw [hR.2.2.1, hL.2.2.1]
  · rw [hR.2.2.2.1, hL.2.2.2.1]
  · rw [hR.2.2.2.2.2.2.1, hL.2.2.2.2.2]
  · intro h
    exact hR.2.2.2.2.2.2.2 (by rw [hL.2.1]; exact h)

theorem run_nil (s : State) : run s [] = s := rfl

theorem run_cons (s : State) (e : Event) (es : List Event) :
    run s (e :: es) = run (step s e) es := rfl

theorem run_append (s : State) (es fs : List Event) :
    run s (es ++ fs) = run (run s es) fs := by
  simp [run, List.foldl_append]

/-! ## The press-and-release handshake -/

/-- Pressing in the resting state `a` (`IDLE` or `POWERON`) moves to the start
state, pressing in the start state stays there; nothing else is written. -/
theorem sequencer_pressed (s : State) (sd1 sd2 : Nat) :
    (s.StateMachine = IDLE →
      sequencer s ON sd1 sd2 = { s with StateMachine := POWERON_START }) ∧
    (s.StateMachine = POWERON_START → sequencer s ON sd1 sd2 = s) ∧
    (s.StateMachine = POWERON →
      sequencer s ON sd1 sd2 = { s with StateMachine := POWEROFF_START }) ∧
    (s.StateMachine = POWEROFF_START → sequencer s ON sd1 sd2 = s) := by
  refine ⟨?_, ?_, ?_, ?_⟩ <;> intro h <;>
    simp [sequencer, h, IDLE, POWERON_START, POWERON_WAIT, POWERON, POWEROFF_START, ON, OFF]

theorem sequencer_released (s : State) (sd1 sd2 : Nat) :
    (s.StateMachine = POWERON_START →
      sequencer s OFF sd1 sd2 =
        { s with LEDStatus := FLASH, RelayStatus := ON,
                 OFFTimer := SAFETY_START_TIME, StateMachine := POWERON_WAIT }) ∧
    (s.StateMachine = POWEROFF_START →
      sequencer s OFF sd1 sd2 =
        { s with LEDStatus := FLASH, port := s.port ||| SHTDOUT,
                 OFFTimer := SAFETY_STOP_TIME, StateMachine := POWEROFF_WAIT }) := by
  refine ⟨?_, ?_⟩ <;> intro h <;>
    simp [sequencer, h, IDLE, POWERON_START, POWERON_WAIT, POWERON, POWEROFF_START, ON, OFF]

/-- While the button is held, a schedule started in `IDLE` or `POWERON_START`
is in `POWERON_START` as soon as one iteration has run. -/
theorem run_pressed_on (es : List Event) : ∀ s : State, allPressed es →
    (s.StateMachine = POWERON_START → (run s es).StateMachine = POWERON_START) ∧
    (s.StateMachine = IDLE → 1 ≤ iterCount es →
      (run s es).StateMachine = POWERON_START) := by
  induction es with
  | nil =>
    intro s _
    exact ⟨fun h => h, fun _ h => absurd h (by simp [iterCount])⟩
  | cons e es ih =>
    intro s hp
    cases e with
    | tick =>
      have hT := (TIMERA0_ISR_frame s).1
      have ih2 := ih (TIMERA0_ISR s) hp
      refine ⟨fun h => ?_, fun h hn => ?_⟩
      · exact ih2.1 (by rw [hT]; exact h)
      · exact ih2.2 (by rw [hT]; exact h) hn
    | iter i =>
      obtain ⟨hb, hp2⟩ := hp
      have hD := (drivers_frame s).1
      have hS := sequencer_pressed (Relay (LEDPower s)) i.sd1 i.sd2
      have ih2 := ih (mainLoop s i) hp2
      refine ⟨fun h => ?_, fun h _ => ?_⟩
      · apply ih2.1
        show (sequencer _ _ _ _).StateMachine = _
        rw [hb, hS.2.1 (by rw [hD]; exact h), hD]; exact h
      · apply ih2.1
        show (sequencer _ _ _ _).StateMachine = _
        rw [hb, hS.1 (by rw [hD]; exact h)]

theorem bit1_of_2 : Nat.testBit 2 1 = true := by decide

/-- While the button is held, a schedule started in `POWERON` or
`POWEROFF_START` with the relay target `ON` is in `POWEROFF_START` as soon as
one iteration has run; the relay target stays `ON` and the `SHTDOUT` bit is
not written. -/
theorem run_pressed_off (es : List Event) : ∀ s : State, allPressed es →
    s.RelayStatus = ON →
    (s.StateMachine = POWEROFF_START ∨ (s.StateMachine = POWERON ∧ 1 ≤ iterCount es)) →
    (run s es).StateMachine = POWEROFF_START ∧ (run s es).RelayStatus = ON ∧
    (run s es).port.testBit SHTDOUT_BIT = s.port.testBit SHTDOUT_BIT := by
  induction es with
  | nil =>
    intro s _ hr h
    rcases h with h | ⟨_, h⟩
    · exact ⟨h, hr, rfl⟩
    · exact absurd h (by simp [iterCount])
  | cons e es ih =>
    intro s hp hr h
    cases e with
    | tick =>
      have hT := TIMERA0_ISR_frame s
      have ih2 := ih (TIMERA0_ISR s) hp (by rw [hT.2.2.1]; exact hr)
        (by rw [hT.1]; exact h)
      rw [run_cons]
      show (run (TIMERA0_ISR s) es).StateMachine = _ ∧ _
      rw [hT.2.2.2.1] at ih2
      exact ih2
    | iter i =>
      obtain ⟨hb, hp2⟩ := hp
      have hD := drivers_frame s
      have hS := sequencer_pressed (Relay (LEDPower s)) i.sd1 i.sd2
      have hrel := hD.2.2.2.2 hr
      have hm : (mainLoop s i).StateMachine = POWEROFF_START ∧
          (mainLoop s i).RelayStatus = ON ∧
          (mainLoop s i).port.testBit SHTDOUT_BIT = s.port.testBit SHTDOUT_BIT := by
        unfold mainLoop
        rw [hb]
        rcases h with h | ⟨h, _⟩
        · rw [hS.2.2.2 (by rw [hD.1]; exact h)]
          exact ⟨by rw [hD.1]; exact h, hrel, hD.2.2.2.1⟩
        · rw [hS.2.2.1 (by rw [hD.1]; exact h)]
          exact ⟨rfl, hrel, hD.2.2.2.1⟩
      have ih2 := ih (mainLoop s i) hp2 hm.2.1 (Or.inl hm.1)
      rw [run_cons]
      show (run (mainLoop s i) es).StateMachine = _ ∧ _
      rw [hm.2.2] at ih2
      exact ih2

/-! ## Single evaluations of the sequencer -/

theorem bit1_of_253 : Nat.testBit 253 1 = false := by decide

theorem powerRaspiOff_post (s : State) :
    (powerRaspiOff s).LEDStatus = OFF ∧ (powerRaspiOff s).RelayStatus = OFF ∧
    (powerRaspiOff s).port.testBit SHTDOUT_BIT = false ∧
    (powerRaspiOff s).OFFTimer = 0 ∧
    (powerRaspiOff s).StateMachine = s.StateMachine := by
  simp [powerRaspiOff, SHTDOUT_BIT, SHTDOUT, not8, Nat.testBit_land, bit1_of_253]

/-- In each of the three waiting states an expired countdown makes the
`switch` run the power-off sequence and go to `IDLE`, whatever the inputs. -/
theorem sequencer_expired (s : State) (b sd1 sd2 : Nat)
    (hs : s.StateMachine = POWERON_WAIT ∨ s.StateMachine = POWEROFF_WAIT ∨
      s.StateMachine = POWEROFF)
    (h0 : s.OFFTimer = 0) :
    sequencer s b sd1 sd2 = { powerRaspiOff s with StateMachine := IDLE } := by
  rcases hs with h | h | h <;>
    simp [sequencer, h, h0, IDLE, POWERON_START, POWERON_WAIT, POWERON, POWEROFF_START,
      POWEROFF_WAIT, POWEROFF]

theorem isRaspberryRunning_cases (a b : Nat) :
    isRaspberryRunning a b = ON ∨ isRaspberryRunning a b = OFF := by
  unfold isRaspberryRunning
  split_ifs <;> simp

/-- C3. Boot timeout wins: in `POWERON_WAIT` with `OFFTimer = 0` one
evaluation of the `switch`, and so one whole loop iteration, gives
`StateMachine = IDLE`, LED target `OFF`, relay target `OFF`, the `SHTDOUT` bit
clear and `OFFTimer = 0`, for every button reading and all confirmation
samples: the result is the same state for all of them. -/
theorem C3_boot_timeout_wins (s : State) (b sd1 sd2 : Nat) (i : Inputs)
    (hs : s.StateMachine = POWERON_WAIT) (h0 : s.OFFTimer = 0) :
    sequencer s b sd1 sd2 = { powerRaspiOff s with StateMachine := IDLE } ∧
    ((sequencer s b sd1 sd2).StateMachine = IDLE ∧
     (sequencer s b sd1 sd2).LEDStatus = OFF ∧
     (sequencer s b sd1 sd2).RelayStatus = OFF ∧
     (sequencer s b sd1 sd2).port.testBit SHTDOUT_BIT = false ∧
     (sequencer s b sd1 sd2).OFFTimer = 0) ∧
    ((mainLoop s i).StateMachine = IDLE ∧
     (mainLoop s i).LEDStatus = OFF ∧
     (mainLoop s i).RelayStatus = OFF ∧
     (mainLoop s i).port.testBit SHTDOUT_BIT = false ∧
     (mainLoop s i).OFFTimer = 0) := by
  have hD := drivers_frame s
  have e1 := sequencer_expired s b sd1 sd2 (Or.inl hs) h0
  have e2 := sequencer_expired (Relay (LEDPower s)) (readPushbutton i.pb1 i.pb2) i.sd1 i.sd2
    (Or.inl (by rw [hD.1]; exact hs)) (by rw [hD.2.1]; exact h0)
  have p1 := powerRaspiOff_post s
  have p2 := powerRaspiOff_post (Relay (LEDPower s))
  refine ⟨e1, ?_, ?_⟩
  · rw [e1]
    exact ⟨rfl, p1.1, p1.2.1, p1.2.2.1, p1.2.2.2.1⟩
  · unfold mainLoop
    rw [e2]
    exact ⟨rfl, p2.1, p2.2.1, p2.2.2.1, p2.2.2.2.1⟩

/-- C3 at a `POWERON_WAIT` state with the countdown at 0, button pressed and
the confirmation line reading "running". -/
theorem C3_boot_timeout_wins_witness :
    sequencer bootExpired ON 0x10 0x10 = { powerRaspiOff bootExpired with StateMachine := IDLE } ∧
    ((sequencer bootExpired ON 0x10 0x10).StateMachine = IDLE ∧
     (sequencer bootExpired ON 0x10 0x10).LEDStatus = OFF ∧
     (sequencer bootExpired ON 0x10 0x10).RelayStatus = OFF ∧
     (sequencer bootExpired ON 0x10 0x10).port.testBit SHTDOUT_BIT = false ∧
     (sequencer bootExpired ON 0x10 0x10).OFFTimer = 0) ∧
    ((mainLoop bootExpired pressedRunning).StateMachine = IDLE ∧
     (mainLoop bootExpired pressedRunning).LEDStatus = OFF ∧
     (mainLoop bootExpired pressedRunning).RelayStatus = OFF ∧
     (mainLoop bootExpired pressedRunning).port.testBit SHTDOUT_BIT = false ∧
     (mainLoop bootExpired pressedRunning).OFFTimer = 0) :=
  C3_boot_timeout_wins bootExpired ON 0x10 0x10 pressedRunning rfl rfl

/-- C4. Boot confirmed: in `POWERON_WAIT` with `OFFTimer ≠ 0`, if
`isRaspberryRunning` returns `ON` the `switch` gives `StateMachine = POWERON`,
`LEDStatus = ON`, `OFFTimer = 0` and leaves the relay target (and everything
else) as it was, so `ON` stays `ON`; if it returns `OFF` the `switch` leaves the
whole state unchanged. `ON` and `OFF` are the only values it returns. The
same holds for a whole loop iteration as far as `StateMachine`, `OFFTimer` and
a relay target `ON` are concerned. -/
theorem C4_boot_confirmed (s : State) (b sd1 sd2 : Nat) (i : Inputs)
    (hs : s.StateMachine = POWERON_WAIT) (h0 : s.OFFTimer ≠ 0) :
    (isRaspberryRunning sd1 sd2 = ON ∨ isRaspberryRunning sd1 sd2 = OFF) ∧
    (isRaspberryRunning sd1 sd2 = ON →
      (sequencer s b sd1 sd2).StateMachine = POWERON ∧
      (sequencer s b sd1 sd2).LEDStatus = ON ∧
      (sequencer s b sd1 sd2).OFFTimer = 0 ∧
      (sequencer s b sd1 sd2).RelayStatus = s.RelayStatus ∧
      sequencer s b sd1 sd2 =
        { s with OFFTimer := 0, LEDStatus := ON, StateMachine := POWERON }) ∧
    (isRaspberryRunning sd1 sd2 = OFF → sequencer s b sd1 sd2 = s) ∧
    (isRaspberryRunning i.sd1 i.sd2 = ON →
      (mainLoop s i).StateMachine = POWERON ∧ (mainLoop s i).LEDStatus = ON ∧
      (mainLoop s i).OFFTimer = 0 ∧
      (s.RelayStatus = ON → (mainLoop s i).RelayStatus = ON)) ∧
    (isRaspberryRunning i.sd1 i.sd2 = OFF →
      (mainLoop s i).StateMachine = s.StateMachine ∧
      (mainLoop s i).OFFTimer = s.OFFTimer ∧
      (s.RelayStatus = ON → (mainLoop s i).RelayStatus = ON)) := by
  have key : ∀ (t : State) (c x y : Nat), t.StateMachine = POWERON_WAIT → t.OFFTimer ≠ 0 →
      (isRaspberryRunning x y = ON → sequencer t c x y =
        { t with OFFTimer := 0, LEDStatus := ON, StateMachine := POWERON }) ∧
      (isRaspberryRunning x y = OFF → sequencer t c x y = t) := by
    intro t c x y ht h
    constructor <;> intro hr <;>
      simp [sequencer, ht, h, hr, IDLE, POWERON_START, POWERON_WAIT, ON, OFF]
  have hD := drivers_frame s
  have k1 := key s b sd1 sd2 hs h0
  have k2 := key (Relay (LEDPower s)) (readPushbutton i.pb1 i.pb2) i.sd1 i.sd2
    (by rw [hD.1]; exact hs) (by rw [hD.2.1]; exact h0)
  refine ⟨isRaspberryRunning_cases sd1 sd2, ?_, k1.2, ?_, ?_⟩
  · intro hr
    rw [k1.1 hr]
    exact ⟨rfl, rfl, rfl, rfl, rfl⟩
  · intro hr
    unfold mainLoop
    rw [k2.1 hr]
    exact ⟨rfl, rfl, rfl, hD.2.2.2.2⟩
  · intro hr
    unfold mainLoop
    rw [k2.2 hr]
    exact ⟨hD.1, hD.2.1, hD.2.2.2.2⟩

/-- C4 at `bootWaiting`, where `OFFTimer = 199`: the state reached when the
SBC is seen running. -/
theorem C4_boot_confirmed_witness :
    bootWaiting.StateMachine = POWERON_WAIT ∧ bootWaiting.OFFTimer = 199 ∧
    (sequencer bootWaiting OFF 0x10 0x10).StateMachine = POWERON ∧
    (sequencer bootWaiting OFF 0x10 0x10).LEDStatus = ON ∧
    (sequencer bootWaiting OFF 0x10 0x10).OFFTimer = 0 ∧
    (sequencer bootWaiting OFF 0x10 0x10).RelayStatus = ON ∧
    sequencer bootWaiting OFF 0x00 0x00 = bootWaiting :=
  have h := C4_boot_confirmed bootWaiting OFF 0x10 0x10 releasedRunning
    (by decide) (by decide)
  have g := C4_boot_confirmed bootWaiting OFF 0x00 0x00 releasedStopped
    (by decide) (by decide)
  ⟨by decide, by decide, (h.2.1 (by decide)).1, (h.2.1 (by decide)).2.1,
    (h.2.1 (by decide)).2.2.1, by decide, g.2.2.1 (by decide)⟩

/-! ## The power-off sequence -/

theorem testBit_253 (k : Nat) (hk : k ≠ 1) (h8 : k < 8) : Nat.testBit 253 k = true := by
  interval_cases k <;> first | decide | exact absurd rfl hk

/-- C7. The power-off sequence `powerRaspiOff` has a fixed postcondition
(`LEDStatus = OFF`, `RelayStatus = OFF`, `SHTDOUT` bit clear, `OFFTimer = 0`),
is idempotent, leaves each of the other seven bits of the 8-bit port as it
was, and leaves `StateMachine`, `TimeFlash` and `PrescalerTime` unchanged. -/
theorem C7_powerRaspiOff_idempotent (s : State) :
    ((powerRaspiOff s).LEDStatus = OFF ∧ (powerRaspiOff s).RelayStatus = OFF ∧
     (powerRaspiOff s).port.testBit SHTDOUT_BIT = false ∧
     (powerRaspiOff s).OFFTimer = 0) ∧
    powerRaspiOff (powerRaspiOff s) = powerRaspiOff s ∧
    (∀ k : Nat, k < 8 → k ≠ SHTDOUT_BIT →
      (powerRaspiOff s).port.testBit k = s.port.testBit k) ∧
    (powerRaspiOff s).StateMachine = s.StateMachine ∧
    (powerRaspiOff s).TimeFlash = s.TimeFlash ∧
    (powerRaspiOff s).PrescalerTime = s.PrescalerTime := by
  have p := powerRaspiOff_post s
  refine ⟨⟨p.1, p.2.1, p.2.2.1, p.2.2.2.1⟩, ?_, ?_, rfl, rfl, rfl⟩
  · simp [powerRaspiOff, Nat.land_assoc]
  · intro k h8 hk
    have hb := testBit_253 k hk h8
    simp only [powerRaspiOff, SHTDOUT, not8, Nat.testBit_land]
    have e : (255 ^^^ 2 : Nat) = 253 := by decide
    rw [e, hb, Bool.and_true]

/-- C8, refuted as stated: in the reachable state `bootWaiting` the flash
countdown and the prescaler are both non-zero, and they are still non-zero
after `powerRaspiOff`; only `OFFTimer` is 0. -/
theorem C8_counterexample :
    (powerRaspiOff bootWaiting).OFFTimer = 0 ∧
    (powerRaspiOff bootWaiting).TimeFlash = -15537 ∧
    (powerRaspiOff bootWaiting).PrescalerTime = -15536 ∧
    ¬ ((powerRaspiOff bootWaiting).TimeFlash = 0 ∧
       (powerRaspiOff bootWaiting).OFFTimer = 0 ∧
       (powerRaspiOff bootWaiting).PrescalerTime = 0) := by
  decide

/-- C8, amended: `powerRaspiOff` sets the safety countdown `OFFTimer` to 0
and leaves the flash countdown `TimeFlash` and the prescaler `PrescalerTime`
as they were. -/
theorem C8_powerRaspiOff_timers (s : State) :
    (powerRaspiOff s).OFFTimer = 0 ∧
    (powerRaspiOff s).TimeFlash = s.TimeFlash ∧
    (powerRaspiOff s).PrescalerTime = s.PrescalerTime :=
  ⟨rfl, rfl, rfl⟩

/-! ## Unrecognised state values -/

theorem sequencer_default (s : State) (b sd1 sd2 : Nat) (hv : 6 < s.StateMachine) :
    sequencer s b sd1 sd2 = { s with StateMachine := IDLE } := by
  have h0 : s.StateMachine ≠ 0 := by omega
  have h1 : s.StateMachine ≠ 1 := by omega
  have h2 : s.StateMachine ≠ 2 := by omega
  have h3 : s.StateMachine ≠ 3 := by omega
  have h4 : s.StateMachine ≠ 4 := by omega
  have h5 : s.StateMachine ≠ 5 := by omega
  have h6 : s.StateMachine ≠ 6 := by omega
  simp [sequencer, h0, h1, h2, h3, h4, h5, h6, IDLE, POWERON_START, POWERON_WAIT, POWERON,
    POWEROFF_START, POWEROFF_WAIT, POWEROFF]

/-- C9. Defensive reset: when `StateMachine` holds a value above 6, the value
of no `case` label, one evaluation of the `switch` gives `StateMachine = IDLE`
for every button reading and all confirmation samples, and so does one whole
loop iteration. -/
theorem C9_defensive_reset (s : State) (b sd1 sd2 : Nat) (i : Inputs)
    (hv : 6 < s.StateMachine) :
    (sequencer s b sd1 sd2).StateMachine = IDLE ∧ (mainLoop s i).StateMachine = IDLE := by
  constructor
  · rw [sequencer_default s b sd1 sd2 hv]
  · unfold mainLoop
    rw [sequencer_default _ _ _ _ (by rw [(drivers_frame s).1]; exact hv)]

/-- C9 at the state `corrupted`, whose `StateMachine` is 7. -/
theorem C9_defensive_reset_witness :
    (sequencer corrupted ON 0 0).StateMachine = IDLE ∧
    (mainLoop corrupted pressedStopped).StateMachine = IDLE :=
  C9_defensive_reset corrupted ON 0 0 pressedStopped (by decide)

/-- C10, refuted as stated: in `corrupted` the state variable is 7 while the
relay target is `ON`, the LED target is `FLASH` and the `SHTDOUT` bit is set.
One evaluation of the `switch`, and one whole loop iteration, give
`StateMachine = IDLE` but leave the relay target `ON`, the LED target `FLASH`
and the `SHTDOUT` bit set: power is not removed. -/
theorem C10_counterexample :
    6 < corrupted.StateMachine ∧
    (sequencer corrupted OFF 0x10 0x10).StateMachine = IDLE ∧
    (sequencer corrupted OFF 0x10 0x10).RelayStatus = ON ∧
    (sequencer corrupted OFF 0x10 0x10).LEDStatus = FLASH ∧
    (sequencer corrupted OFF 0x10 0x10).port.testBit SHTDOUT_BIT = true ∧
    (mainLoop corrupted releasedRunning).StateMachine = IDLE ∧
    (mainLoop corrupted releasedRunning).RelayStatus = ON ∧
    (mainLoop corrupted releasedRunning).LEDStatus = FLASH ∧
    (mainLoop corrupted releasedRunning).port.testBit SHTDOUT_BIT = true ∧
    ¬ ((sequencer corrupted OFF 0x10 0x10).RelayStatus = OFF) ∧
    ¬ ((mainLoop corrupted releasedRunning).RelayStatus = OFF) := by
  decide

/-- C10, amended: when `StateMachine` holds a value above 6, one evaluation of
the `switch` sets `StateMachine = IDLE` and changes nothing else: the relay
target, the LED target and the whole port, the `SHTDOUT` bit included, are as
they were. After one whole loop iteration `StateMachine = IDLE`, the `SHTDOUT`
bit is as it was and a relay target `ON` is still `ON`. -/
theorem C10_invalid_state_resets_only (s : State) (b sd1 sd2 : Nat) (i : Inputs)
    (hv : 6 < s.StateMachine) :
    sequencer s b sd1 sd2 = { s with StateMachine := IDLE } ∧
    ((sequencer s b sd1 sd2).StateMachine = IDLE ∧
     (sequencer s b sd1 sd2).RelayStatus = s.RelayStatus ∧
     (sequencer s b sd1 sd2).LEDStatus = s.LEDStatus ∧
     (sequencer s b sd1 sd2).port = s.port ∧
     (sequencer s b sd1 sd2).OFFTimer = s.OFFTimer) ∧
    ((mainLoop s i).StateMachine = IDLE ∧
     (mainLoop s i).port.testBit SHTDOUT_BIT = s.port.testBit SHTDOUT_BIT ∧
     (mainLoop s i).OFFTimer = s.OFFTimer ∧
     (s.RelayStatus = ON → (mainLoop s i).RelayStatus = ON)) := by
  have hD := drivers_frame s
  have e1 := sequencer_default s b sd1 sd2 hv
  have e2 := sequencer_default (Relay (LEDPower s)) (readPushbutton i.pb1 i.pb2) i.sd1 i.sd2
    (by rw [hD.1]; exact hv)
  refine ⟨e1, ?_, ?_⟩
  · rw [e1]
    exact ⟨rfl, rfl, rfl, rfl, rfl⟩
  · unfold mainLoop
    rw [e2]
    exact ⟨rfl, hD.2.2.2.1, hD.2.1, hD.2.2.2.2⟩

/-- C10 (amended) at the state `corrupted`, whose `StateMachine` is 7. -/
theorem C10_invalid_state_resets_only_witness :
    sequencer corrupted OFF 0x10 0x10 = { corrupted with StateMachine := IDLE } ∧
    ((sequencer corrupted OFF 0x10 0x10).StateMachine = IDLE ∧
     (sequencer corrupted OFF 0x10 0x10).RelayStatus = corrupted.RelayStatus ∧
     (sequencer corrupted OFF 0x10 0x10).LEDStatus = corrupted.LEDStatus ∧
     (sequencer corrupted OFF 0x10 0x10).port = corrupted.port ∧
     (sequencer corrupted OFF 0x10 0x10).OFFTimer = corrupted.OFFTimer) ∧
    ((mainLoop corrupted releasedRunning).StateMachine = IDLE ∧
     (mainLoop corrupted releasedRunning).port.testBit SHTDOUT_BIT =
       corrupted.port.testBit SHTDOUT_BIT ∧
     (mainLoop corrupted releasedRunning).OFFTimer = corrupted.OFFTimer ∧
     (corrupted.RelayStatus = ON → (mainLoop corrupted releasedRunning).RelayStatus = ON)) :=
  C10_invalid_state_resets_only corrupted OFF 0x10 0x10 releasedRunning (by decide)

/-! ## The two-level countdown -/

theorem wrap16_pred (x : Int) (hx : fits16 x) (h0 : x ≠ 0) :
    fits16 (wrap16 (x - 1)) ∧ pattern16 (wrap16 (x - 1)) + 1 = pattern16 x := by
  unfold fits16 at *
  unfold wrap16 pattern16
  omega

theorem pattern16_eq_zero (x : Int) (hx : fits16 x) : pattern16 x = 0 ↔ x = 0 := by
  unfold fits16 at hx
  unfold pattern16
  omega

theorem wrap16_small (x : Int) (h : -32768 ≤ x ∧ x ≤ 32767) : wrap16 x = x := by
  unfold wrap16
  omega

theorem wrap16_PRESCALER :
    fits16 (wrap16 PRESCALER) ∧ pattern16 (wrap16 PRESCALER) = 50000 := by
  unfold fits16; decide

/-- What one tick does to the safety countdown and its prescaler. -/
theorem TIMERA0_ISR_timer (s : State) :
    (TIMERA0_ISR s).OFFTimer =
      (if s.OFFTimer ≠ 0 ∧ s.PrescalerTime = 0 then wrap16 (s.OFFTimer - 1)
       else s.OFFTimer) ∧
    (TIMERA0_ISR s).PrescalerTime =
      (if s.OFFTimer ≠ 0 then
         (if s.PrescalerTime ≠ 0 then wrap16 (s.PrescalerTime - 1) else wrap16 PRESCALER)
       else s.PrescalerTime) := by
  unfold TIMERA0_ISR
  simp only []
  split_ifs <;> simp_all


theorem ticks_zero (s : State) : ticks 0 s = s := rfl

theorem ticks_succ (k : Nat) (s : State) : ticks (k + 1) s = TIMERA0_ISR (ticks k s) := by
  unfold ticks
  exact Function.iterate_succ_apply' TIMERA0_ISR k s

theorem ticks_add (j k : Nat) (s : State) : ticks (j + k) s = ticks k (ticks j s) := by
  unfold ticks
  rw [Nat.add_comm, Function.iterate_add_apply]

theorem ticks_frame (k : Nat) (s : State) :
    (ticks k s).StateMachine = s.StateMachine ∧
    (ticks k s).LEDStatus = s.LEDStatus ∧
    (ticks k s).RelayStatus = s.RelayStatus ∧
    (ticks k s).port = s.port := by
  induction k with
  | zero => exact ⟨rfl, rfl, rfl, rfl⟩
  | succ k ih =>
    have hT := TIMERA0_ISR_frame (ticks k s)
    rw [ticks_succ]
    exact ⟨hT.1.trans ih.1, hT.2.1.trans ih.2.1, hT.2.2.1.trans ih.2.2.1,
      hT.2.2.2.1.trans ih.2.2.2⟩

/-- While the prescaler runs down, the safety countdown keeps its value. -/
theorem ticks_within_cycle (k : Nat) (s : State) (ho : s.OFFTimer ≠ 0)
    (hp : fits16 s.PrescalerTime) (hk : k ≤ pattern16 s.PrescalerTime) :
    (ticks k s).OFFTimer = s.OFFTimer ∧ fits16 (ticks k s).PrescalerTime ∧
    pattern16 (ticks k s).PrescalerTime + k = pattern16 s.PrescalerTime := by
  induction k with
  | zero => exact ⟨rfl, hp, rfl⟩
  | succ k ih =>
    obtain ⟨i1, i2, i3⟩ := ih (by omega)
    have hT := TIMERA0_ISR_timer (ticks k s)
    have hne : (ticks k s).PrescalerTime ≠ 0 := by
      intro h
      have := (pattern16_eq_zero _ i2).2 h
      omega
    have hw := wrap16_pred _ i2 hne
    rw [ticks_succ, hT.1, hT.2, i1]
    simp only [ho, hne, ne_eq, not_false_eq_true, and_false, if_false, if_true]
    exact ⟨trivial, hw.1, by omega⟩

/-- The tick that finds the prescaler at 0 reloads it and decrements the
safety countdown. -/
theorem tick_reload (s : State) (ho : s.OFFTimer ≠ 0) (hp : s.PrescalerTime = 0) :
    (TIMERA0_ISR s).OFFTimer = wrap16 (s.OFFTimer - 1) ∧
    (TIMERA0_ISR s).PrescalerTime = wrap16 PRESCALER := by
  have hT := TIMERA0_ISR_timer s
  rw [hT.1, hT.2]
  simp [ho, hp]

/-- A disarmed countdown stays disarmed under ticks. -/
theorem ticks_disarmed (k : Nat) (s : State) (ho : s.OFFTimer = 0) :
    (ticks k s).OFFTimer = 0 := by
  induction k with
  | zero => exact ho
  | succ k ih =>
    rw [ticks_succ, (TIMERA0_ISR_timer _).1]
    simp [ih]

/-- The safety countdown holding `o + 1` reaches 0 at tick
`expiryTick (o + 1) p` and at no earlier tick. -/
theorem ticks_expiry (o : Nat) : ∀ s : State, s.OFFTimer = (o : Int) + 1 →
    o + 1 ≤ 32767 → fits16 s.PrescalerTime →
    (∀ k, k < pattern16 s.PrescalerTime + 1 + o * 50001 → (ticks k s).OFFTimer ≠ 0) ∧
    (ticks (pattern16 s.PrescalerTime + 1 + o * 50001) s).OFFTimer = 0 := by
  induction o with
  | zero =>
    intro s ho _ hp
    have hne : s.OFFTimer ≠ 0 := by omega
    refine ⟨fun k hk => ?_, ?_⟩
    · rw [(ticks_within_cycle k s hne hp (by omega)).1]; exact hne
    · obtain ⟨a1, a2, a3⟩ := ticks_within_cycle (pattern16 s.PrescalerTime) s hne hp le_rfl
      have hz := (pattern16_eq_zero _ a2).1 (by omega)
      have hr := tick_reload _ (by rw [a1]; exact hne) hz
      have e : pattern16 s.PrescalerTime + 1 + 0 * 50001 = pattern16 s.PrescalerTime + 1 := by
        omega
      rw [e, ticks_succ, hr.1, a1, ho]
      decide
  | succ o ih =>
    intro s ho hb hp
    have hne : s.OFFTimer ≠ 0 := by omega
    obtain ⟨a1, a2, a3⟩ := ticks_within_cycle (pattern16 s.PrescalerTime) s hne hp le_rfl
    have hz := (pattern16_eq_zero _ a2).1 (by omega)
    have hr := tick_reload _ (by rw [a1]; exact hne) hz
    have hw : wrap16 (s.OFFTimer - 1) = (o : Int) + 1 := by
      rw [wrap16_small _ (by omega)]; omega
    have hs1 : (ticks (pattern16 s.PrescalerTime + 1) s).OFFTimer = (o : Int) + 1 := by
      rw [ticks_succ, hr.1, a1, hw]
    have hs2 : (ticks (pattern16 s.PrescalerTime + 1) s).PrescalerTime = wrap16 PRESCALER := by
      rw [ticks_succ, hr.2]
    have ih2 := ih (ticks (pattern16 s.PrescalerTime + 1) s) hs1 (by omega)
      (by rw [hs2]; exact wrap16_PRESCALER.1)
    rw [hs2, wrap16_PRESCALER.2] at ih2
    refine ⟨fun k hk => ?_, ?_⟩
    · by_cases hle : k ≤ pattern16 s.PrescalerTime
      · rw [(ticks_within_cycle k s hne hp hle).1]; exact hne
      · have e : k = (pattern16 s.PrescalerTime + 1) + (k - (pattern16 s.PrescalerTime + 1)) := by
          omega
        rw [e, ticks_add]
        exact ih2.1 _ (by omega)
    · have e : pattern16 s.PrescalerTime + 1 + (o + 1) * 50001 =
          (pattern16 s.PrescalerTime + 1) + (50000 + 1 + o * 50001) := by omega
      rw [e, ticks_add]
      exact ih2.2


/-! ## Waiting under interleaved ticks and iterations -/

theorem tick_congr (t u : State) (ho : t.OFFTimer = u.OFFTimer)
    (hp : t.PrescalerTime = u.PrescalerTime) :
    (TIMERA0_ISR t).OFFTimer = (TIMERA0_ISR u).OFFTimer ∧
    (TIMERA0_ISR t).PrescalerTime = (TIMERA0_ISR u).PrescalerTime := by
  have ht := TIMERA0_ISR_timer t
  have hu := TIMERA0_ISR_timer u
  rw [ht.1, ht.2, hu.1, hu.2, ho, hp]
  exact ⟨rfl, rfl⟩

theorem ticks_congr (j : Nat) (t u : State) (ho : t.OFFTimer = u.OFFTimer)
    (hp : t.PrescalerTime = u.PrescalerTime) :
    (ticks j t).OFFTimer = (ticks j u).OFFTimer ∧
    (ticks j t).PrescalerTime = (ticks j u).PrescalerTime := by
  induction j with
  | zero => exact ⟨ho, hp⟩
  | succ j ih =>
    rw [ticks_succ, ticks_succ]
    exact tick_congr _ _ ih.1 ih.2

theorem tickCount_append (es fs : List Event) :
    tickCount (es ++ fs) = tickCount es + tickCount fs := by
  induction es with
  | nil => simp [tickCount]
  | cons e es ih =>
    cases e with
    | tick =>
      show tickCount (es ++ fs) + 1 = tickCount es + 1 + tickCount fs
      rw [ih]; omega
    | iter i => exact ih

theorem allWaiting_append (W : Nat) (es fs : List Event) :
    allWaiting W (es ++ fs) ↔ allWaiting W es ∧ allWaiting W fs := by
  induction es with
  | nil => simp [allWaiting]
  | cons e es ih =>
    cases e with
    | tick => exact ih
    | iter i =>
      show noConfirmation W i.sd1 i.sd2 ∧ allWaiting W (es ++ fs) ↔
        (noConfirmation W i.sd1 i.sd2 ∧ allWaiting W es) ∧ allWaiting W fs
      rw [ih, and_assoc]

/-- In a waiting state with the countdown running and no confirmation, the
`switch` changes nothing. -/
theorem sequencer_waiting (W : Nat) (s : State) (b sd1 sd2 : Nat)
    (hW : W = POWERON_WAIT ∨ W = POWEROFF_WAIT ∨ W = POWEROFF)
    (hs : s.StateMachine = W) (ho : s.OFFTimer ≠ 0) (hc : noConfirmation W sd1 sd2) :
    sequencer s b sd1 sd2 = s := by
  rcases hW with h | h | h <;> subst h
  · have := hc.1 rfl
    simp [sequencer, hs, ho, this, IDLE, POWERON_START, POWERON_WAIT, OFF]
  · have := hc.2 rfl
    simp [sequencer, hs, ho, this, IDLE, POWERON_START, POWERON_WAIT, POWERON,
      POWEROFF_START, POWEROFF_WAIT, ON]
  · simp [sequencer, hs, ho, IDLE, POWERON_START, POWERON_WAIT, POWERON,
      POWEROFF_START, POWEROFF_WAIT, POWEROFF]

theorem mainLoop_waiting (W : Nat) (s : State) (i : Inputs)
    (hW : W = POWERON_WAIT ∨ W = POWEROFF_WAIT ∨ W = POWEROFF)
    (hs : s.StateMachine = W) (ho : s.OFFTimer ≠ 0) (hc : noConfirmation W i.sd1 i.sd2) :
    (mainLoop s i).StateMachine = W ∧
    (mainLoop s i).OFFTimer = s.OFFTimer ∧
    (mainLoop s i).PrescalerTime = s.PrescalerTime ∧
    (s.RelayStatus = ON → (mainLoop s i).RelayStatus = ON) := by
  have hD := drivers_frame s
  unfold mainLoop
  rw [sequencer_waiting W _ _ _ _ hW (by rw [hD.1]; exact hs) (by rw [hD.2.1]; exact ho) hc]
  exact ⟨hD.1.trans hs, hD.2.1, hD.2.2.1, hD.2.2.2.2⟩

/-- Under every interleaving, as long as the countdown has not reached 0 the
sequencer stays in the waiting state, a relay target `ON` stays `ON`, and the
countdown and its prescaler hold what the ticks alone would have left. -/
theorem run_waiting (W : Nat) (s : State)
    (hW : W = POWERON_WAIT ∨ W = POWEROFF_WAIT ∨ W = POWEROFF)
    (hs : s.StateMachine = W) (es : List Event) :
    allWaiting W es → (∀ k, k ≤ tickCount es → (ticks k s).OFFTimer ≠ 0) →
    (run s es).StateMachine = W ∧
    (run s es).OFFTimer = (ticks (tickCount es) s).OFFTimer ∧
    (run s es).PrescalerTime = (ticks (tickCount es) s).PrescalerTime ∧
    (s.RelayStatus = ON → (run s es).RelayStatus = ON) := by
  induction es using List.reverseRecOn with
  | nil =>
    intro _ _
    exact ⟨hs, rfl, rfl, fun h => h⟩
  | append_singleton es e ih =>
    intro ha hk
    rw [allWaiting_append] at ha
    rw [tickCount_append] at hk ⊢
    obtain ⟨i1, i2, i3, i4⟩ := ih ha.1 (fun k h => hk k (by omega))
    rw [run_append]
    cases e with
    | tick =>
      have hT := TIMERA0_ISR_frame (run s es)
      have hc := tick_congr (run s es) (ticks (tickCount es) s) i2 i3
      show (TIMERA0_ISR (run s es)).StateMachine = W ∧ _
      have e1 : tickCount es + tickCount [Event.tick] = tickCount es + 1 := rfl
      rw [e1, ticks_succ]
      exact ⟨hT.1.trans i1, hc.1, hc.2, fun h => hT.2.2.1.trans (i4 h)⟩
    | iter i =>
      have e1 : tickCount es + tickCount [Event.iter i] = tickCount es := rfl
      have hne : (run s es).OFFTimer ≠ 0 := by
        rw [i2]; exact hk _ (by omega)
      have hm := mainLoop_waiting W (run s es) i hW i1 hne ha.2.1
      show (mainLoop (run s es) i).StateMachine = W ∧ _
      rw [e1]
      exact ⟨hm.1, hm.2.1.trans i2, hm.2.2.1.trans i3, fun h => hm.2.2.2 (i4 h)⟩

/-- The whole course of a countdown armed at `o + 1` in a waiting state: before
tick number `N = pattern16 p + 1 + o * 50001` every interleaving leaves the
sequencer waiting with the countdown non-zero; once the ticks have reached `N`
the countdown is 0 and the next iteration powers off and goes to `IDLE`. -/
theorem countdown_course (W : Nat) (s : State) (o : Nat)
    (hW : W = POWERON_WAIT ∨ W = POWEROFF_WAIT ∨ W = POWEROFF)
    (hs : s.StateMachine = W) (ho : s.OFFTimer = (o : Int) + 1) (hb : o + 1 ≤ 32767)
    (hp : fits16 s.PrescalerTime) (es : List Event) (hes : allWaiting W es)
    (hlt : tickCount es < pattern16 s.PrescalerTime + 1 + o * 50001) :
    ((run s es).StateMachine = W ∧ (run s es).OFFTimer ≠ 0 ∧
      (s.RelayStatus = ON → (run s es).RelayStatus = ON)) ∧
    ∀ (j : Nat) (i : Inputs), pattern16 s.PrescalerTime + 1 + o * 50001 ≤ tickCount es + j →
      ((ticks j (run s es)).StateMachine = W ∧ (ticks j (run s es)).OFFTimer = 0 ∧
        (s.RelayStatus = ON → (ticks j (run s es)).RelayStatus = ON)) ∧
      ((mainLoop (ticks j (run s es)) i).StateMachine = IDLE ∧
       (mainLoop (ticks j (run s es)) i).LEDStatus = OFF ∧
       (mainLoop (ticks j (run s es)) i).RelayStatus = OFF ∧
       (mainLoop (ticks j (run s es)) i).port.testBit SHTDOUT_BIT = false ∧
       (mainLoop (ticks j (run s es)) i).OFFTimer = 0) := by
  have hE := ticks_expiry o s ho hb hp
  have hR := run_waiting W s hW hs es hes (fun k hk => hE.1 k (by omega))
  refine ⟨⟨hR.1, ?_, hR.2.2.2⟩, ?_⟩
  · rw [hR.2.1]; exact hE.1 _ hlt
  · intro j i hj
    have hF := ticks_frame j (run s es)
    have hC := ticks_congr j (run s es) (ticks (tickCount es) s) hR.2.1 hR.2.2.1
    have h0 : (ticks j (run s es)).OFFTimer = 0 := by
      rw [hC.1, ← ticks_add]
      have e : tickCount es + j = (pattern16 s.PrescalerTime + 1 + o * 50001) +
          (tickCount es + j - (pattern16 s.PrescalerTime + 1 + o * 50001)) := by omega
      rw [e, ticks_add]
      exact ticks_disarmed _ _ hE.2
    have hsm : (ticks j (run s es)).StateMachine = W := hF.1.trans hR.1
    refine ⟨⟨hsm, h0, fun h => hF.2.2.1.trans (hR.2.2.2 h)⟩, ?_⟩
    have hD := drivers_frame (ticks j (run s es))
    have hx := sequencer_expired (Relay (LEDPower (ticks j (run s es))))
      (readPushbutton i.pb1 i.pb2) i.sd1 i.sd2
      (by rw [hD.1, hsm]; exact hW) (by rw [hD.2.1]; exact h0)
    have p := powerRaspiOff_post (Relay (LEDPower (ticks j (run s es))))
    unfold mainLoop
    rw [hx]
    exact ⟨rfl, p.1, p.2.1, p.2.2.1, p.2.2.2.1⟩

/-! ## Grace delay and safety timeout -/

/-- C6. Safety timeout: let `W` be `POWERON_WAIT` or `POWEROFF_WAIT` and `s`
a state with `StateMachine = W`, `OFFTimer = 200` and `PrescalerTime` in
`[0, PRESCALER]`, and let no iteration bring the awaited confirmation. Put
`N = expiryTick 200 p = p + 1 + 199 * 50001`, so `N ≤ 200 * (PRESCALER + 1)`.
Under every interleaving `es` of ticks and iterations with fewer than `N` ticks
the state is `W`, `OFFTimer ≠ 0`, and a relay target `ON` is still `ON`. Once
the ticks have reached `N` (`j` further ticks, no iteration in between)
`OFFTimer` is 0, the state is still `W`, and the first iteration after that,
whatever it reads, gives `StateMachine = IDLE`, LED target `OFF`, relay target
`OFF`, the `SHTDOUT` bit clear and `OFFTimer = 0`. -/
theorem C6_safety_timeout (W : Nat) (s : State) (es : List Event) (j : Nat) (i : Inputs)
    (hW : W = POWERON_WAIT ∨ W = POWEROFF_WAIT)
    (hs : s.StateMachine = W) (ho : s.OFFTimer = 200)
    (hp : 0 ≤ s.PrescalerTime ∧ s.PrescalerTime ≤ PRESCALER)
    (hes : allWaiting W es)
    (hlt : tickCount es < expiryTick 200 s.PrescalerTime)
    (hj : expiryTick 200 s.PrescalerTime ≤ tickCount es + j) :
    ((expiryTick 200 s.PrescalerTime : Int) = s.PrescalerTime + 1 + 199 * (PRESCALER + 1) ∧
      (expiryTick 200 s.PrescalerTime : Int) ≤ 200 * (PRESCALER + 1)) ∧
    ((run s es).StateMachine = W ∧ (run s es).OFFTimer ≠ 0 ∧
      (s.RelayStatus = ON → (run s es).RelayStatus = ON)) ∧
    ((ticks j (run s es)).StateMachine = W ∧ (ticks j (run s es)).OFFTimer = 0 ∧
      (s.RelayStatus = ON → (ticks j (run s es)).RelayStatus = ON)) ∧
    ((mainLoop (ticks j (run s es)) i).StateMachine = IDLE ∧
     (mainLoop (ticks j (run s es)) i).LEDStatus = OFF ∧
     (mainLoop (ticks j (run s es)) i).RelayStatus = OFF ∧
     (mainLoop (ticks j (run s es)) i).port.testBit SHTDOUT_BIT = false ∧
     (mainLoop (ticks j (run s es)) i).OFFTimer = 0) := by
  have hP : PRESCALER = 50000 := rfl
  rw [hP] at hp ⊢
  have hN : expiryTick 200 s.PrescalerTime = pattern16 s.PrescalerTime + 1 + 199 * 50001 := by
    simp [expiryTick]
  have hpat : (pattern16 s.PrescalerTime : Int) = s.PrescalerTime := by
    unfold pattern16; omega
  rw [hN] at hlt hj ⊢
  have hW3 : W = POWERON_WAIT ∨ W = POWEROFF_WAIT ∨ W = POWEROFF := by
    rcases hW with h | h
    · exact Or.inl h
    · exact Or.inr (Or.inl h)
  have hc := countdown_course W s 199 hW3 hs (by rw [ho]; norm_num) (by norm_num)
    (by unfold fits16; omega) es hes hlt
  have hfin := hc.2 j i hj
  refine ⟨⟨?_, ?_⟩, hc.1, hfin.1, hfin.2⟩
  · push_cast; omega
  · push_cast; omega

/-- C6 at `bootArmed`, the state right after the power-on request, for
`W = POWERON_WAIT`: a few events before the expiry, then `200 * 50001` ticks. -/
theorem C6_safety_timeout_witness :
    ((expiryTick 200 bootArmed.PrescalerTime : Int) =
        bootArmed.PrescalerTime + 1 + 199 * (PRESCALER + 1) ∧
      (expiryTick 200 bootArmed.PrescalerTime : Int) ≤ 200 * (PRESCALER + 1)) ∧
    ((run bootArmed noBoot).StateMachine = POWERON_WAIT ∧ (run bootArmed noBoot).OFFTimer ≠ 0 ∧
      (bootArmed.RelayStatus = ON → (run bootArmed noBoot).RelayStatus = ON)) ∧
    ((ticks 10000200 (run bootArmed noBoot)).StateMachine = POWERON_WAIT ∧
      (ticks 10000200 (run bootArmed noBoot)).OFFTimer = 0 ∧
      (bootArmed.RelayStatus = ON → (ticks 10000200 (run bootArmed noBoot)).RelayStatus = ON)) ∧
    ((mainLoop (ticks 10000200 (run bootArmed noBoot)) pressedRunning).StateMachine = IDLE ∧
     (mainLoop (ticks 10000200 (run bootArmed noBoot)) pressedRunning).LEDStatus = OFF ∧
     (mainLoop (ticks 10000200 (run bootArmed noBoot)) pressedRunning).RelayStatus = OFF ∧
     (mainLoop (ticks 10000200 (run bootArmed noBoot))
        pressedRunning).port.testBit SHTDOUT_BIT = false ∧
     (mainLoop (ticks 10000200 (run bootArmed noBoot)) pressedRunning).OFFTimer = 0) :=
  C6_safety_timeout POWERON_WAIT bootArmed noBoot 10000200 pressedRunning
    (Or.inl rfl) (by decide) (by decide) (by decide) (by decide) (by decide) (by decide)

/-! ## The input readers -/

theorem readPushbutton_cases (a b : Nat) :
    readPushbutton a b = ON ∨ readPushbutton a b = OFF := by
  unfold readPushbutton
  split_ifs <;> simp

/-- The `switch` uses the confirmation samples only through the value
`isRaspberryRunning` returns. -/
theorem sequencer_samples (s : State) (b x y x2 y2 : Nat)
    (h : isRaspberryRunning x y = isRaspberryRunning x2 y2) :
    sequencer s b x y = sequencer s b x2 y2 := by
  simp only [sequencer, h]

/-- C14. Two-sample debounce: as functions of the two successive samples of
`P1IN`, `readPushbutton` returns `ON` exactly when the `PUSHBTN` bit is 0 in
both samples, and `isRaspberryRunning` returns `OFF` exactly when the `SHTDIN`
bit is 0 in both samples; both return only `ON` or `OFF`. A line that is low
on the first sample and high on the second gives `OFF` (not pressed) and `ON`
(running). The readers take and return no program state, and a loop iteration
depends on the samples only through the two values the readers return. -/
theorem C14_two_sample_debounce (in1 in2 : Nat) :
    (readPushbutton in1 in2 = ON ↔ (in1 &&& PUSHBTN = 0 ∧ in2 &&& PUSHBTN = 0)) ∧
    (isRaspberryRunning in1 in2 = OFF ↔ (in1 &&& SHTDIN = 0 ∧ in2 &&& SHTDIN = 0)) ∧
    (readPushbutton in1 in2 = ON ∨ readPushbutton in1 in2 = OFF) ∧
    (isRaspberryRunning in1 in2 = ON ∨ isRaspberryRunning in1 in2 = OFF) ∧
    (in1 &&& PUSHBTN = 0 → in2 &&& PUSHBTN ≠ 0 → readPushbutton in1 in2 = OFF) ∧
    (in1 &&& SHTDIN = 0 → in2 &&& SHTDIN ≠ 0 → isRaspberryRunning in1 in2 = ON) ∧
    (∀ (s : State) (i j : Inputs),
      readPushbutton i.pb1 i.pb2 = readPushbutton j.pb1 j.pb2 →
      isRaspberryRunning i.sd1 i.sd2 = isRaspberryRunning j.sd1 j.sd2 →
      mainLoop s i = mainLoop s j) := by
  refine ⟨?_, ?_, readPushbutton_cases in1 in2, isRaspberryRunning_cases in1 in2, ?_, ?_, ?_⟩
  · unfold readPushbutton
    split_ifs <;> simp_all [ON, OFF]
  · unfold isRaspberryRunning
    split_ifs <;> simp_all [ON, OFF]
  · intro h1 h2
    simp [readPushbutton, h1, h2]
  · intro h1 h2
    simp [isRaspberryRunning, h1, h2]
  · intro s i j hb hr
    unfold mainLoop
    rw [hb]
    exact sequencer_samples _ _ _ _ _ _ hr

/-! ## The LED driver and its port writes -/

theorem testBit_one (k : Nat) : Nat.testBit 1 k = decide (k = 0) := by
  have h := @Nat.testBit_two_pow 0 k
  rw [pow_zero] at h
  rw [h]
  by_cases hk : k = 0
  · simp [hk]
  · have : ¬ (0 = k) := fun e => hk e.symm
    simp [hk, this]

/-- The port after `LEDPower` is the port before with the writes of the call
applied: `LEDPowerWrites` lists the writes of `LEDPower`. -/
theorem LEDPower_port (s : State) :
    (LEDPower s).port = (LEDPowerWrites s).foldl applyOp s.port := by
  unfold LEDPower LEDPowerWrites
  split_ifs <;> simp [applyOp]

/-- The port after `Relay` is the port before with the writes of the call
applied. -/
theorem Relay_port (s : State) :
    (Relay s).port = (RelayWrites s).foldl applyOp s.port := by
  unfold Relay RelayWrites
  split_ifs <;> simp [applyOp]

/-- The `FLASH` case of `LEDPower` when the flash countdown has run out. -/
theorem LEDPower_flash_expired (s : State) (hF : s.LEDStatus = FLASH) (h0 : s.TimeFlash = 0) :
    LEDPower s =
      { s with port := s.port ^^^ LED, TimeFlash := wrap16 FLASHTIME,
               shadowLEDStatus := FLASH } := by
  simp [LEDPower, hF, h0, FLASH, ON, OFF]

/-- C12. Flash toggling: with the LED target `FLASH`, a `LEDPower` call that
finds `TimeFlash = 0` executes the single write `RPOF_PORT ^= LED`, so it
inverts the LED bit and leaves every other port bit unchanged, and it reloads
`TimeFlash` by the assignment `TimeFlash = FLASHTIME`, `FLASHTIME = 50000`:
the 16-bit `int` then holds the pattern 50000 and is non-zero. A second call
before any tick takes the early return: it writes nothing and changes nothing.
A call with target `FLASH` and `TimeFlash ≠ 0` writes nothing and leaves the
port and `TimeFlash` unchanged. -/
theorem C12_flash_toggling (s : State) (hF : s.LEDStatus = FLASH) :
    (s.TimeFlash = 0 →
      LEDPowerWrites s = [PortOp.toggleBits LED] ∧
      (LEDPower s).port = s.port ^^^ LED ∧
      (LEDPower s).port.testBit LED_BIT = !(s.port.testBit LED_BIT) ∧
      (∀ k : Nat, k ≠ LED_BIT → (LEDPower s).port.testBit k = s.port.testBit k) ∧
      (LEDPower s).TimeFlash = wrap16 FLASHTIME ∧ FLASHTIME = 50000 ∧
      pattern16 (LEDPower s).TimeFlash = 50000 ∧
      (LEDPower s).TimeFlash ≠ 0 ∧
      LEDPowerWrites (LEDPower s) = [] ∧
      LEDPower (LEDPower s) = LEDPower s) ∧
    (s.TimeFlash ≠ 0 →
      LEDPowerWrites s = [] ∧
      (LEDPower s).port = s.port ∧
      (LEDPower s).TimeFlash = s.TimeFlash) := by
  have hw : wrap16 FLASHTIME = -15536 := by decide
  constructor
  · intro h0
    have e := LEDPower_flash_expired s hF h0
    refine ⟨?_, ?_, ?_, ?_, ?_, rfl, ?_, ?_, ?_, ?_⟩
    · simp [LEDPowerWrites, hF, h0, FLASH, ON, OFF]
    · rw [e]
    · rw [e]
      simp only [LED, LED_BIT, Nat.testBit_xor, testBit_one, decide_True, Bool.xor_true]
    · intro k hk
      rw [e]
      simp only [LED, Nat.testBit_xor, testBit_one]
      have : decide (k = 0) = false := by simpa [LED_BIT] using hk
      rw [this, Bool.xor_false]
    · rw [e]
    · rw [e]
      show pattern16 (wrap16 FLASHTIME) = 50000
      decide
    · rw [e]
      show wrap16 FLASHTIME ≠ 0
      decide
    · rw [e]
      simp [LEDPowerWrites, hF, hw]
    · rw [e]
      simp [LEDPower, hF, hw]
  · intro h0
    have hl : LEDPowerWrites s = [] := by
      unfold LEDPowerWrites
      split_ifs <;> simp_all [FLASH, ON, OFF]
    have hq : (LEDPower s).TimeFlash = s.TimeFlash := by
      unfold LEDPower
      split_ifs <;> simp_all [FLASH, ON, OFF]
    refine ⟨hl, ?_, hq⟩
    rw [LEDPower_port, hl]
    rfl

/-- C12 at `bootArmed`, the state right after the power-on request: the LED
target is `FLASH` and `TimeFlash = 0`. -/
theorem C12_flash_toggling_witness :
    bootArmed.LEDStatus = FLASH ∧ bootArmed.TimeFlash = 0 ∧
    LEDPowerWrites bootArmed = [PortOp.toggleBits LED] ∧
    (LEDPower bootArmed).port = bootArmed.port ^^^ LED ∧
    (LEDPower bootArmed).TimeFlash = wrap16 FLASHTIME ∧
    LEDPower (LEDPower bootArmed) = LEDPower bootArmed :=
  have h := (C12_flash_toggling bootArmed (by decide)).1 (by decide)
  ⟨by decide, by decide, h.1, h.2.1, h.2.2.2.2.1, h.2.2.2.2.2.2.2.2.2⟩

/-! ## The tick handler -/

/-- What one tick does to the flash countdown. -/
theorem TIMERA0_ISR_flash (s : State) :
    (TIMERA0_ISR s).TimeFlash =
      (if s.TimeFlash ≠ 0 then wrap16 (s.TimeFlash - 1) else s.TimeFlash) := by
  unfold TIMERA0_ISR
  simp only []
  split_ifs <;> simp_all

/-- C16. The tick handler on a state whose three counters hold non-negative
values of the 16-bit `int` range: (a) `TimeFlash` is decremented by 1 if it is
positive and stays 0 otherwise; (b) with `OFFTimer > 0` and
`PrescalerTime > 0`, `PrescalerTime` is decremented by 1 and `OFFTimer` is
unchanged; (c) with `OFFTimer > 0` and `PrescalerTime = 0`, `PrescalerTime` is
reloaded by the assignment `PrescalerTime = PRESCALER`, `PRESCALER = 50000`
(the 16-bit `int` then holds the pattern 50000), and `OFFTimer` is decremented
by 1; (d) with `OFFTimer = 0` both are unchanged. `StateMachine`, the LED and
relay targets, the port and the two shadows are never changed. -/
theorem C16_tick_rule (s : State)
    (hT : 0 ≤ s.TimeFlash ∧ s.TimeFlash ≤ 32767)
    (hP : 0 ≤ s.PrescalerTime ∧ s.PrescalerTime ≤ 32767)
    (hO : 0 ≤ s.OFFTimer ∧ s.OFFTimer ≤ 32767) :
    ((0 < s.TimeFlash → (TIMERA0_ISR s).TimeFlash = s.TimeFlash - 1) ∧
     (s.TimeFlash = 0 → (TIMERA0_ISR s).TimeFlash = 0)) ∧
    (0 < s.OFFTimer → 0 < s.PrescalerTime →
      (TIMERA0_ISR s).PrescalerTime = s.PrescalerTime - 1 ∧
      (TIMERA0_ISR s).OFFTimer = s.OFFTimer) ∧
    (0 < s.OFFTimer → s.PrescalerTime = 0 →
      (TIMERA0_ISR s).PrescalerTime = wrap16 PRESCALER ∧ PRESCALER = 50000 ∧
      pattern16 (TIMERA0_ISR s).PrescalerTime = 50000 ∧
      (TIMERA0_ISR s).OFFTimer = s.OFFTimer - 1) ∧
    (s.OFFTimer = 0 →
      (TIMERA0_ISR s).PrescalerTime = s.PrescalerTime ∧
      (TIMERA0_ISR s).OFFTimer = s.OFFTimer) ∧
    ((TIMERA0_ISR s).StateMachine = s.StateMachine ∧
     (TIMERA0_ISR s).LEDStatus = s.LEDStatus ∧
     (TIMERA0_ISR s).RelayStatus = s.RelayStatus ∧
     (TIMERA0_ISR s).port = s.port ∧
     (TIMERA0_ISR s).shadowLEDStatus = s.shadowLEDStatus ∧
     (TIMERA0_ISR s).shadowRelayStatus = s.shadowRelayStatus) := by
  have hF := TIMERA0_ISR_flash s
  have hM := TIMERA0_ISR_timer s
  refine ⟨⟨?_, ?_⟩, ?_, ?_, ?_, TIMERA0_ISR_frame s⟩
  · intro h
    have hne : s.TimeFlash ≠ 0 := by omega
    rw [hF, if_pos hne, wrap16_small _ (by omega)]
  · intro h
    rw [hF]
    simp [h]
  · intro ho hp
    have h1 : s.OFFTimer ≠ 0 := by omega
    have h2 : s.PrescalerTime ≠ 0 := by omega
    rw [hM.1, hM.2]
    simp only [h1, h2, ne_eq, not_false_eq_true, and_false, if_false, if_true]
    exact ⟨wrap16_small _ (by omega), trivial⟩
  · intro ho hp
    have h1 : s.OFFTimer ≠ 0 := by omega
    have hr := tick_reload s h1 hp
    refine ⟨hr.2, rfl, ?_, ?_⟩
    · rw [hr.2]; decide
    · rw [hr.1]; exact wrap16_small _ (by omega)
  · intro ho
    rw [hM.1, hM.2]
    simp [ho]

/-- C16 at a state with the countdown armed at 200 and the prescaler at 0, and
`TimeFlash = 5`: the tick that reloads the prescaler. -/
theorem C16_tick_rule_witness :
    (TIMERA0_ISR { bootArmed with TimeFlash := 5 }).TimeFlash = 4 ∧
    (TIMERA0_ISR { bootArmed with TimeFlash := 5 }).PrescalerTime = wrap16 PRESCALER ∧
    (TIMERA0_ISR { bootArmed with TimeFlash := 5 }).OFFTimer = 199 :=
  have h := C16_tick_rule { bootArmed with TimeFlash := 5 } (by decide) (by decide) (by decide)
  ⟨h.1.1 (by decide), (h.2.2.1 (by decide) (by decide)).1,
    (h.2.2.1 (by decide) (by decide)).2.2.2⟩

/-- While the flash countdown runs down, its 16-bit pattern goes down by one
per tick. -/
theorem ticks_flash (k : Nat) (s : State) (hf : fits16 s.TimeFlash)
    (hk : k ≤ pattern16 s.TimeFlash) :
    fits16 (ticks k s).TimeFlash ∧
    pattern16 (ticks k s).TimeFlash + k = pattern16 s.TimeFlash := by
  induction k with
  | zero => exact ⟨hf, rfl⟩
  | succ k ih =>
    obtain ⟨i1, i2⟩ := ih (by omega)
    have hne : (ticks k s).TimeFlash ≠ 0 := by
      intro h
      have := (pattern16_eq_zero _ i1).2 h
      omega
    have hw := wrap16_pred _ i1 hne
    rw [ticks_succ, TIMERA0_ISR_flash, if_pos hne]
    exact ⟨hw.1, by omega⟩

/-- C20. Countdown reload under the 16-bit `int`: the assignments
`TimeFlash = FLASHTIME` and `PrescalerTime = PRESCALER`, both constants being
50000, store `50000 - 65536 = -15536`, a negative value, in `LEDPower` and in
`TIMERA0_ISR`. From a state `s`
holding that value in `TimeFlash`, the flash countdown is non-zero after each
of the first 49999 ticks and is 0 after exactly 50000 ticks. From a state
holding that value in `PrescalerTime` with the safety countdown armed, the
prescaler is non-zero and `OFFTimer` unchanged after each of the first 49999
ticks, the prescaler is 0 after exactly 50000 ticks, and tick number
`50001 = PRESCALER + 1` reloads it and decrements `OFFTimer` by 1: one
decrement of `OFFTimer` per 50001 ticks. -/
theorem C20_reload_16bit (s : State)
    (hT : s.TimeFlash = wrap16 FLASHTIME) (hP : s.PrescalerTime = wrap16 PRESCALER)
    (hO : 1 ≤ s.OFFTimer ∧ s.OFFTimer ≤ 32767) :
    (FLASHTIME = 50000 ∧ PRESCALER = 50000 ∧
      wrap16 FLASHTIME = 50000 - 65536 ∧ wrap16 PRESCALER = 50000 - 65536 ∧
      wrap16 FLASHTIME = -15536 ∧ wrap16 PRESCALER = -15536 ∧
      s.TimeFlash < 0 ∧ s.PrescalerTime < 0) ∧
    ((∀ t : State, t.LEDStatus = FLASH → t.TimeFlash = 0 →
        (LEDPower t).TimeFlash = -15536) ∧
      (∀ t : State, t.OFFTimer ≠ 0 → t.PrescalerTime = 0 →
        (TIMERA0_ISR t).PrescalerTime = -15536)) ∧
    ((∀ k : Nat, k < 50000 → (ticks k s).TimeFlash ≠ 0) ∧
      (ticks 50000 s).TimeFlash = 0) ∧
    ((∀ k : Nat, k < 50000 →
        (ticks k s).PrescalerTime ≠ 0 ∧ (ticks k s).OFFTimer = s.OFFTimer) ∧
      (ticks 50000 s).PrescalerTime = 0 ∧ (ticks 50000 s).OFFTimer = s.OFFTimer ∧
      (ticks 50001 s).PrescalerTime = wrap16 PRESCALER ∧
      (ticks 50001 s).OFFTimer = s.OFFTimer - 1 ∧
      ((50001 : Int) = PRESCALER + 1)) := by
  have hw : wrap16 FLASHTIME = -15536 := by decide
  have hv : wrap16 PRESCALER = -15536 := by decide
  have hfT : fits16 s.TimeFlash := by rw [hT, hw]; decide
  have hfP : fits16 s.PrescalerTime := by rw [hP, hv]; decide
  have hpT : pattern16 s.TimeFlash = 50000 := by rw [hT, hw]; decide
  have hpP : pattern16 s.PrescalerTime = 50000 := by rw [hP, hv]; decide
  have hne : s.OFFTimer ≠ 0 := by omega
  refine ⟨⟨rfl, rfl, by rw [hw]; norm_num, by rw [hv]; norm_num, hw, hv,
    by rw [hT, hw]; norm_num, by rw [hP, hv]; norm_num⟩, ⟨?_, ?_⟩, ⟨?_, ?_⟩,
    ?_, ?_, ?_, ?_, ?_, ?_⟩
  · intro t h1 h2
    rw [LEDPower_flash_expired t h1 h2]
    exact hw
  · intro t h1 h2
    rw [(tick_reload t h1 h2).2]
    exact hv
  · intro k hk
    obtain ⟨f1, f2⟩ := ticks_flash k s hfT (by omega)
    intro h
    have := (pattern16_eq_zero _ f1).2 h
    omega
  · obtain ⟨f1, f2⟩ := ticks_flash 50000 s hfT (by omega)
    exact (pattern16_eq_zero _ f1).1 (by omega)
  · intro k hk
    obtain ⟨a1, a2, a3⟩ := ticks_within_cycle k s hne hfP (by omega)
    refine ⟨?_, a1⟩
    intro h
    have := (pattern16_eq_zero _ a2).2 h
    omega
  · obtain ⟨a1, a2, a3⟩ := ticks_within_cycle 50000 s hne hfP (by omega)
    exact (pattern16_eq_zero _ a2).1 (by omega)
  · exact (ticks_within_cycle 50000 s hne hfP (by omega)).1
  · obtain ⟨a1, a2, a3⟩ := ticks_within_cycle 50000 s hne hfP (by omega)
    have hz := (pattern16_eq_zero _ a2).1 (by omega)
    rw [ticks_succ, (tick_reload _ (by rw [a1]; exact hne) hz).2]
  · obtain ⟨a1, a2, a3⟩ := ticks_within_cycle 50000 s hne hfP (by omega)
    have hz := (pattern16_eq_zero _ a2).1 (by omega)
    rw [ticks_succ, (tick_reload _ (by rw [a1]; exact hne) hz).1, a1,
      wrap16_small _ (by omega)]
  · rfl

/-- C20 at `justReloaded`, where both countdowns have just been reloaded and
`OFFTimer = 199`. -/
theorem C20_reload_16bit_witness :
    justReloaded.TimeFlash = -15536 ∧ justReloaded.PrescalerTime = -15536 ∧
    justReloaded.OFFTimer = 199 ∧
    (ticks 50000 justReloaded).TimeFlash = 0 ∧
    (ticks 50000 justReloaded).PrescalerTime = 0 ∧
    (ticks 50000 justReloaded).OFFTimer = 199 ∧
    (ticks 50001 justReloaded).OFFTimer = 199 - 1 :=
  have h := C20_reload_16bit justReloaded (by decide) (by decide) (by decide)
  ⟨by decide, by decide, by decide, h.2.2.1.2, h.2.2.2.2.1,
    by rw [h.2.2.2.2.2.1]; decide, by rw [h.2.2.2.2.2.2.2.1]; decide⟩

/-! ## Change detection and invalid targets in the drivers -/

theorem ticks_shadows (k : Nat) (s : State) :
    (ticks k s).shadowLEDStatus = s.shadowLEDStatus ∧
    (ticks k s).shadowRelayStatus = s.shadowRelayStatus := by
  induction k with
  | zero => exact ⟨rfl, rfl⟩
  | succ k ih =>
    have hT := TIMERA0_ISR_frame (ticks k s)
    rw [ticks_succ]
    exact ⟨hT.2.2.2.2.1.trans ih.1, hT.2.2.2.2.2.trans ih.2⟩

/-- C15, the code at two reachable failing inputs. In `idleRendered`, the
state after the first idle loop iteration from power-up, the LED target `OFF`
equals the last-rendered target and `TimeFlash = 0`: the next `LEDPower` call
executes the write `RPOF_PORT &= ~LED`. In `poweredOn` after 49999 further
ticks the LED target `ON` equals the last-rendered target and `TimeFlash = 0`:
the next `LEDPower` call executes the write `RPOF_PORT |= LED`. With
`TimeFlash ≠ 0` the same targets cause no write. -/
theorem C15_rerender_when_countdown_zero :
    (idleRendered.LEDStatus = OFF ∧ idleRendered.shadowLEDStatus = OFF ∧
      idleRendered.TimeFlash = 0 ∧
      LEDPowerWrites idleRendered = [PortOp.clearBits LED]) ∧
    ((ticks 49999 poweredOn).LEDStatus = ON ∧ (ticks 49999 poweredOn).shadowLEDStatus = ON ∧
      (ticks 49999 poweredOn).TimeFlash = 0 ∧
      LEDPowerWrites (ticks 49999 poweredOn) = [PortOp.setBits LED]) ∧
    (poweredOn.LEDStatus = ON ∧ poweredOn.shadowLEDStatus = ON ∧
      poweredOn.TimeFlash ≠ 0 ∧ LEDPowerWrites poweredOn = []) := by
  have h1 : (ticks 49999 poweredOn).LEDStatus = ON :=
    (ticks_frame 49999 poweredOn).2.1.trans (by decide)
  have h2 : (ticks 49999 poweredOn).shadowLEDStatus = ON :=
    (ticks_shadows 49999 poweredOn).1.trans (by decide)
  have h3 : (ticks 49999 poweredOn).TimeFlash = 0 := by
    obtain ⟨f1, f2⟩ := ticks_flash 49999 poweredOn (by decide) (by decide)
    have hp : pattern16 poweredOn.TimeFlash = 49999 := by decide
    exact (pattern16_eq_zero _ f1).1 (by omega)
  refine ⟨by decide, ⟨h1, h2, h3, ?_⟩, by decide⟩
  simp [LEDPowerWrites, h1, h2, h3]

/-- C13, refuted as stated. In `relaySentinel` the invalid relay target `0xFF`
equals the last-rendered value, `Relay` returns early and the target is not
corrected. In `relayStale` the invalid relay target 7 is corrected to `OFF`,
but the `RELAY` bit, set before the call, is still set after it and after a
further call. In `ledStale` the invalid LED target 9 is corrected to `OFF`,
but the LED bit is still set after the call and after a further call. -/
theorem C13_counterexample :
    (relaySentinel.RelayStatus ≠ ON ∧ relaySentinel.RelayStatus ≠ OFF ∧
      Relay relaySentinel = relaySentinel ∧ (Relay relaySentinel).RelayStatus ≠ OFF) ∧
    (relayStale.RelayStatus ≠ ON ∧ relayStale.RelayStatus ≠ OFF ∧
      (Relay relayStale).RelayStatus = OFF ∧
      (Relay relayStale).port.testBit RELAY_BIT = true ∧
      (Relay (Relay relayStale)).port.testBit RELAY_BIT = true) ∧
    (ledStale.LEDStatus ≠ ON ∧ ledStale.LEDStatus ≠ OFF ∧ ledStale.LEDStatus ≠ FLASH ∧
      (LEDPower ledStale).LEDStatus = OFF ∧
      (LEDPower ledStale).port.testBit LED_BIT = true ∧
      (LEDPower (LEDPower ledStale)).port.testBit LED_BIT = true) := by
  decide

/-- C13, amended: a relay target other than `ON` and `OFF` that differs from
the last-rendered value is corrected to `OFF` by one `Relay` call, which
records `OFF` as last rendered; if it equals the last-rendered value the call
returns early and changes nothing. An LED target other than `ON`, `OFF` and
`FLASH` is corrected to `OFF` by one `LEDPower` call, which records `OFF` as
last rendered, when it differs from the last-rendered value or `TimeFlash = 0`;
if it equals the last-rendered value and `TimeFlash ≠ 0` the call returns early
and changes nothing. -/
theorem C13_invalid_target_corrected (s t : State)
    (hr : s.RelayStatus ≠ ON ∧ s.RelayStatus ≠ OFF)
    (hl : t.LEDStatus ≠ ON ∧ t.LEDStatus ≠ OFF ∧ t.LEDStatus ≠ FLASH) :
    (s.shadowRelayStatus ≠ s.RelayStatus →
      (Relay s).RelayStatus = OFF ∧ (Relay s).shadowRelayStatus = OFF) ∧
    (s.shadowRelayStatus = s.RelayStatus → Relay s = s) ∧
    (t.shadowLEDStatus ≠ t.LEDStatus ∨ t.TimeFlash = 0 →
      (LEDPower t).LEDStatus = OFF ∧ (LEDPower t).shadowLEDStatus = OFF) ∧
    (t.shadowLEDStatus = t.LEDStatus ∧ t.TimeFlash ≠ 0 → LEDPower t = t) := by
  refine ⟨?_, ?_, ?_, ?_⟩
  · intro h
    simp [Relay, h, hr.1, hr.2]
  · intro h
    simp [Relay, h]
  · intro h
    have hg : ¬ (t.shadowLEDStatus = t.LEDStatus ∧ t.TimeFlash ≠ 0) := by
      rintro ⟨g1, g2⟩
      rcases h with h | h
      · exact h g1
      · exact g2 h
    simp [LEDPower, hg, hl.1, hl.2.1, hl.2.2]
  · intro h
    simp [LEDPower, h]

/-- C13 (amended) at `relayStale` and `ledStale`, whose invalid targets
differ from the last-rendered value `ON`. -/
theorem C13_invalid_target_corrected_witness :
    ((Relay relayStale).RelayStatus = OFF ∧ (Relay relayStale).shadowRelayStatus = OFF) ∧
    ((LEDPower ledStale).LEDStatus = OFF ∧ (LEDPower ledStale).shadowLEDStatus = OFF) :=
  have h := C13_invalid_target_corrected relayStale ledStale (by decide) (by decide)
  ⟨h.1 (by decide), h.2.2.1 (Or.inl (by decide))⟩

/-! ## A button that stays pressed -/

/-- A schedule whose iterations all read the button as pressed keeps the
sequencer in `POWERON` or `POWEROFF_START` and the relay target `ON`. -/
theorem run_pressed_stays_on (es : List Event) : ∀ s : State, allPressed es →
    s.RelayStatus = ON →
    (s.StateMachine = POWERON ∨ s.StateMachine = POWEROFF_START) →
    ((run s es).StateMachine = POWERON ∨ (run s es).StateMachine = POWEROFF_START) ∧
    (run s es).RelayStatus = ON := by
  induction es with
  | nil =>
    intro s _ hr h
    exact ⟨h, hr⟩
  | cons e es ih =>
    intro s hp hr h
    rw [run_cons]
    cases e with
    | tick =>
      have hT := TIMERA0_ISR_frame s
      exact ih (TIMERA0_ISR s) hp (by rw [hT.2.2.1]; exact hr) (by rw [hT.1]; exact h)
    | iter i =>
      obtain ⟨hb, hp2⟩ := hp
      have hD := drivers_frame s
      have hS := sequencer_pressed (Relay (LEDPower s)) i.sd1 i.sd2
      have hrel := hD.2.2.2.2 hr
      have hm : ((mainLoop s i).StateMachine = POWERON ∨
          (mainLoop s i).StateMachine = POWEROFF_START) ∧ (mainLoop s i).RelayStatus = ON := by
        unfold mainLoop
        rw [hb]
        rcases h with h | h
        · rw [hS.2.2.1 (by rw [hD.1]; exact h)]
          exact ⟨Or.inr rfl, hrel⟩
        · rw [hS.2.2.2 (by rw [hD.1]; exact h)]
          exact ⟨Or.inr (by rw [hD.1]; exact h), hrel⟩
      exact ih (mainLoop s i) hp2 hm.2 hm.1

/-- C11, refuted as stated: `poweredOn` is reachable from power-up, in state
`POWERON` with the relay target `ON`. Under no schedule of ticks and
iterations that all read the button as pressed does it reach `IDLE`, and the
relay target is `ON` after every such schedule. -/
theorem C11_counterexample :
    poweredOn.StateMachine = POWERON ∧ poweredOn.RelayStatus = ON ∧
    ¬ (∃ es : List Event, allPressed es ∧ (run poweredOn es).StateMachine = IDLE) ∧
    ¬ (∃ es : List Event, allPressed es ∧ (run poweredOn es).RelayStatus = OFF) := by
  refine ⟨by decide, by decide, ?_, ?_⟩
  · rintro ⟨es, hp, h⟩
    have hk := (run_pressed_stays_on es poweredOn hp (by decide) (Or.inl (by decide))).1
    rw [h] at hk
    rcases hk with hk | hk <;> exact absurd hk (by decide)
  · rintro ⟨es, hp, h⟩
    have hk := (run_pressed_stays_on es poweredOn hp (by decide) (Or.inl (by decide))).2
    rw [h] at hk
    exact absurd hk (by decide)

/-- C11, amended: a button that reads pressed on every iteration holds the
sequencer in a start state. After any schedule of ticks and at least one
iteration, all reading the button as pressed and with any confirmation input,
a system that was in `IDLE` or `POWERON_START` is in `POWERON_START`, and a
system that was in `POWERON` or `POWEROFF_START` with the relay target `ON` is
in `POWEROFF_START` with the relay target still `ON` and the `SHTDOUT` bit as
it was: it does not reach `IDLE` and power is not removed. -/
theorem C11_stuck_button_holds (s : State) (es : List Event)
    (hp : allPressed es) (hn : 1 ≤ iterCount es) :
    (s.StateMachine = IDLE ∨ s.StateMachine = POWERON_START →
      (run s es).StateMachine = POWERON_START) ∧
    (s.StateMachine = POWERON ∨ s.StateMachine = POWEROFF_START → s.RelayStatus = ON →
      (run s es).StateMachine = POWEROFF_START ∧ (run s es).RelayStatus = ON ∧
      (run s es).port.testBit SHTDOUT_BIT = s.port.testBit SHTDOUT_BIT) := by
  constructor
  · intro h
    rcases h with h | h
    · exact (run_pressed_on es s hp).2 h hn
    · exact (run_pressed_on es s hp).1 h
  · intro h hr
    rcases h with h | h
    · exact run_pressed_off es s hp hr (Or.inr ⟨h, hn⟩)
    · exact run_pressed_off es s hp hr (Or.inl h)

/-- C11 (amended) at the power-up state and at `poweredOn`, the button held
over two iterations. -/
theorem C11_stuck_button_holds_witness :
    (run powerUp holdButton).StateMachine = POWERON_START ∧
    (run poweredOn holdButton).StateMachine = POWEROFF_START ∧
    (run poweredOn holdButton).RelayStatus = ON :=
  have h := C11_stuck_button_holds powerUp holdButton (by decide) (by decide)
  have g := C11_stuck_button_holds poweredOn holdButton (by decide) (by decide)
  ⟨h.1 (Or.inl rfl), (g.2 (Or.inl (by decide)) (by decide)).1,
    (g.2 (Or.inl (by decide)) (by decide)).2.1⟩

/-! ## Invariants of the reachable states -/

theorem bit0_of_1 : Nat.testBit 1 0 = true := by decide
theorem bit0_of_254 : Nat.testBit 254 0 = false := by decide
theorem bit2_of_1 : Nat.testBit 1 2 = false := by decide
theorem bit2_of_254 : Nat.testBit 254 2 = true := by decide
theorem bit0_of_4 : Nat.testBit 4 0 = false := by decide
theorem bit0_of_251 : Nat.testBit 251 0 = true := by decide
theorem bit2_of_4 : Nat.testBit 4 2 = true := by decide
theorem bit2_of_251 : Nat.testBit 251 2 = false := by decide
theorem bit0_of_2 : Nat.testBit 2 0 = false := by decide
theorem bit0_of_253 : Nat.testBit 253 0 = true := by decide
theorem bit2_of_2 : Nat.testBit 2 2 = false := by decide
theorem bit2_of_253 : Nat.testBit 253 2 = true := by decide

/-- After `LEDPower` on a state that satisfies the driver invariant, the LED
shadow equals the LED target, the target is unchanged, and an `ON` or `OFF`
target is on the LED bit; the relay side is untouched. -/
theorem LEDPower_post (s : State) (h : OutInv s) :
    (LEDPower s).shadowLEDStatus = (LEDPower s).LEDStatus ∧
    (LEDPower s).LEDStatus = s.LEDStatus ∧
    ((LEDPower s).LEDStatus = ON → (LEDPower s).port.testBit LED_BIT = true) ∧
    ((LEDPower s).LEDStatus = OFF → (LEDPower s).port.testBit LED_BIT = false) ∧
    (LEDPower s).RelayStatus = s.RelayStatus ∧
    (LEDPower s).shadowRelayStatus = s.shadowRelayStatus ∧
    (LEDPower s).port.testBit RELAY_BIT = s.port.testBit RELAY_BIT := by
  obtain ⟨h1, _, _, h4⟩ := h
  unfold LEDPower
  split_ifs with g1 g2 g3 g4 g5
  · exact ⟨g1.1, rfl, (h4 g1.1).1, (h4 g1.1).2, rfl, rfl, rfl⟩
  · simp [g2, LED, LED_BIT, RELAY_BIT, ON, OFF, Nat.testBit_lor, bit0_of_1, bit2_of_1]
  · simp [g3, LED, LED_BIT, RELAY_BIT, ON, OFF, not8, Nat.testBit_land, bit0_of_254,
      bit2_of_254]
  · simp [g4, LED, LED_BIT, RELAY_BIT, ON, OFF, FLASH, Nat.testBit_xor, bit2_of_1]
  · simp [g4, ON, OFF, FLASH]
  · exfalso
    simp only [ON, OFF, FLASH] at g2 g3 g4
    omega

/-- After `Relay` on a state that satisfies the driver invariant, the relay
shadow equals the relay target, the target is unchanged and is on the `RELAY`
bit; the LED side is untouched. -/
theorem Relay_post (s : State) (h : OutInv s) :
    (Relay s).shadowRelayStatus = (Relay s).RelayStatus ∧
    (Relay s).RelayStatus = s.RelayStatus ∧
    ((Relay s).port.testBit RELAY_BIT = true ↔ (Relay s).RelayStatus = ON) ∧
    (Relay s).LEDStatus = s.LEDStatus ∧
    (Relay s).shadowLEDStatus = s.shadowLEDStatus ∧
    (Relay s).port.testBit LED_BIT = s.port.testBit LED_BIT := by
  obtain ⟨_, h2, h3, _⟩ := h
  unfold Relay
  split_ifs with g1 g2 g3
  · exact ⟨g1, rfl, h3 g1, rfl, rfl, rfl⟩
  · simp [g2, RELAY, LED_BIT, RELAY_BIT, ON, Nat.testBit_lor, bit0_of_4, bit2_of_4]
  · simp [g3, RELAY, LED_BIT, RELAY_BIT, ON, OFF, not8, Nat.testBit_land, bit0_of_251,
      bit2_of_251]
  · exfalso
    simp only [ON, OFF] at g2 g3
    omega

/-- The `switch` writes neither shadow and neither the LED nor the `RELAY`
bit, and it leaves the targets in range. -/
theorem sequencer_out (s : State) (b sd1 sd2 : Nat) :
    (sequencer s b sd1 sd2).shadowLEDStatus = s.shadowLEDStatus ∧
    (sequencer s b sd1 sd2).shadowRelayStatus = s.shadowRelayStatus ∧
    (sequencer s b sd1 sd2).port.testBit LED_BIT = s.port.testBit LED_BIT ∧
    (sequencer s b sd1 sd2).port.testBit RELAY_BIT = s.port.testBit RELAY_BIT ∧
    (s.LEDStatus ≤ 2 → (sequencer s b sd1 sd2).LEDStatus ≤ 2) ∧
    (s.RelayStatus ≤ 1 → (sequencer s b sd1 sd2).RelayStatus ≤ 1) := by
  unfold sequencer
  split_ifs <;>
    simp [powerRaspiOff, SHTDOUT, LED_BIT, RELAY_BIT, ON, OFF, FLASH, not8, Nat.testBit_lor,
      Nat.testBit_land, bit0_of_2, bit2_of_2, bit0_of_253, bit2_of_253]

theorem OutInv_tick (s : State) (h : OutInv s) : OutInv (TIMERA0_ISR s) := by
  have hT := TIMERA0_ISR_frame s
  unfold OutInv at h ⊢
  rw [hT.2.1, hT.2.2.1, hT.2.2.2.1, hT.2.2.2.2.1, hT.2.2.2.2.2]
  exact h

theorem OutInv_mainLoop (s : State) (i : Inputs) (h : OutInv s) : OutInv (mainLoop s i) := by
  have hL := LEDPower_post s h
  have hLi : OutInv (LEDPower s) := by
    refine ⟨by rw [hL.2.1]; exact h.1, by rw [hL.2.2.2.2.1]; exact h.2.1, ?_, ?_⟩
    · rw [hL.2.2.2.2.1, hL.2.2.2.2.2.1, hL.2.2.2.2.2.2]
      exact h.2.2.1
    · intro _
      exact ⟨hL.2.2.1, hL.2.2.2.1⟩
  have hR := Relay_post (LEDPower s) hLi
  have hS := sequencer_out (Relay (LEDPower s)) (readPushbutton i.pb1 i.pb2) i.sd1 i.sd2
  have eL : (Relay (LEDPower s)).LEDStatus ≤ 2 := by
    rw [hR.2.2.2.1, hL.2.1]; exact h.1
  have eR : (Relay (LEDPower s)).RelayStatus ≤ 1 := by
    rw [hR.2.1, hL.2.2.2.2.1]; exact h.2.1
  unfold mainLoop
  refine ⟨hS.2.2.2.2.1 eL, hS.2.2.2.2.2 eR, ?_, ?_⟩
  · intro e
    rw [hS.2.1, hR.1] at e
    rw [hS.2.2.2.1, ← e]
    exact hR.2.2.1
  · intro e
    rw [hS.1, hR.2.2.2.2.1, hL.1, ← hR.2.2.2.1] at e
    rw [hS.2.2.1, ← e, hR.2.2.2.2.2, hR.2.2.2.1]
    exact ⟨hL.2.2.1, hL.2.2.2.1⟩

theorem Relay_valid (s : State) (h : s.RelayStatus ≤ 1) :
    (Relay s).RelayStatus = s.RelayStatus := by
  unfold Relay
  split_ifs with g1 g2 g3
  · rfl
  · rfl
  · rfl
  · exfalso
    simp only [ON, OFF] at g2 g3
    omega

theorem SeqInv_tick (s : State) (h : SeqInv s) : SeqInv (TIMERA0_ISR s) := by
  have hT := TIMERA0_ISR_frame s
  have hM := (TIMERA0_ISR_timer s).1
  obtain ⟨h1, h2, h3, h4, h5, h6, h7⟩ := h
  have hO : (TIMERA0_ISR s).OFFTimer = s.OFFTimer ∨
      (s.OFFTimer ≠ 0 ∧ (TIMERA0_ISR s).OFFTimer = s.OFFTimer - 1) := by
    rw [hM]
    by_cases g : s.OFFTimer ≠ 0 ∧ s.PrescalerTime = 0
    · rw [if_pos g]
      exact Or.inr ⟨g.1, wrap16_small _ (by omega)⟩
    · rw [if_neg g]
      exact Or.inl rfl
  unfold SeqInv
  rw [hT.1, hT.2.2.1, hT.2.2.2.1]
  refine ⟨h1, h2, h3, h4, ?_, ?_, ?_⟩
  · intro g
    apply h5
    rcases hO with e | ⟨e1, _⟩
    · rw [e] at g; exact g
    · exact e1
  · rcases hO with e | ⟨e1, e2⟩
    · rw [e]; exact h6
    · rw [e2]; omega
  · rcases hO with e | ⟨e1, e2⟩
    · rw [e]; exact h7
    · rw [e2]; omega

theorem SeqInv_drivers (s : State) (h : SeqInv s) : SeqInv (Relay (LEDPower s)) := by
  have hD := drivers_frame s
  have hL := LEDPower_frame s
  have hR := Relay_valid (LEDPower s) (by rw [hL.2.1]; exact h.2.1)
  obtain ⟨h1, h2, h3, h4, h5, h6, h7⟩ := h
  unfold SeqInv
  rw [hD.1, hD.2.1, hD.2.2.2.1, hR, hL.2.1]
  exact ⟨h1, h2, h3, h4, h5, h6, h7⟩

theorem SeqInv_sequencer (s : State) (b sd1 sd2 : Nat) (h : SeqInv s) :
    SeqInv (sequencer s b sd1 sd2) := by
  unfold SeqInv at h ⊢
  obtain ⟨h1, h2, h3, h4, h5, h6, h7⟩ := h
  simp only [IDLE, POWERON_START, POWERON_WAIT, POWERON, POWEROFF_START, POWEROFF_WAIT,
    POWEROFF, ON, OFF, SHTDOUT_BIT] at *
  unfold sequencer
  simp only [IDLE, POWERON_START, POWERON_WAIT, POWERON, POWEROFF_START, POWEROFF_WAIT,
    POWEROFF, ON, OFF, FLASH, SAFETY_START_TIME, SAFETY_STOP_TIME, TURN_OFF_TIME]
  split_ifs <;>
    simp_all [powerRaspiOff, SHTDOUT, OFF, not8, Nat.testBit_lor, Nat.testBit_land,
      bit1_of_2, bit1_of_253]
  all_goals omega

theorem SeqInv_mainLoop (s : State) (i : Inputs) (h : SeqInv s) : SeqInv (mainLoop s i) :=
  SeqInv_sequencer _ _ _ _ (SeqInv_drivers s h)

theorem SeqInv_powerUp : SeqInv powerUp := by
  unfold SeqInv
  decide

theorem OutInv_powerUp : OutInv powerUp := by
  unfold OutInv
  decide

/-- Both invariants hold in every state reachable from a state in which they
hold, by any schedule. -/
theorem inv_run (es : List Event) : ∀ s : State, SeqInv s ∧ OutInv s →
    SeqInv (run s es) ∧ OutInv (run s es) := by
  induction es with
  | nil => intro s h; exact h
  | cons e es ih =>
    intro s h
    rw [run_cons]
    cases e with
    | tick => exact ih _ ⟨SeqInv_tick s h.1, OutInv_tick s h.2⟩
    | iter i => exact ih _ ⟨SeqInv_mainLoop s i h.1, OutInv_mainLoop s i h.2⟩

theorem inv_reachable (es : List Event) :
    SeqInv (run powerUp es) ∧ OutInv (run powerUp es) :=
  inv_run es powerUp ⟨SeqInv_powerUp, OutInv_powerUp⟩

/-- C17. In every state reachable from power-up by a schedule of main-loop
iterations, with any button and confirmation samples, and ticks: `OFFTimer ≠ 0`
implies that `StateMachine` is `POWERON_WAIT`, `POWEROFF_WAIT` or `POWEROFF`;
`OFFTimer = 0` whenever the state is `IDLE`, `POWERON_START`, `POWERON` or
`POWEROFF_START`; and `0 ≤ OFFTimer ≤ 200`. -/
theorem C17_countdown_armed_only_waiting (es : List Event) :
    ((run powerUp es).OFFTimer ≠ 0 →
      (run powerUp es).StateMachine = POWERON_WAIT ∨
      (run powerUp es).StateMachine = POWEROFF_WAIT ∨
      (run powerUp es).StateMachine = POWEROFF) ∧
    ((run powerUp es).StateMachine = IDLE ∨ (run powerUp es).StateMachine = POWERON_START ∨
      (run powerUp es).StateMachine = POWERON ∨
      (run powerUp es).StateMachine = POWEROFF_START → (run powerUp es).OFFTimer = 0) ∧
    0 ≤ (run powerUp es).OFFTimer ∧ (run powerUp es).OFFTimer ≤ 200 := by
  obtain ⟨_, _, _, _, h5, h6, h7⟩ := (inv_reachable es).1
  refine ⟨h5, ?_, h6, h7⟩
  intro h
  by_contra hne
  have h5' := h5 hne
  simp only [IDLE, POWERON_START, POWERON_WAIT, POWERON, POWEROFF_START, POWEROFF_WAIT,
    POWEROFF] at h h5'
  omega

/-- C18. In every state `s` reachable from power-up by iterations and ticks,
right after the `LEDPower` and `Relay` calls of the next iteration the targets
are what they were in `s`, the `RELAY` bit of the port is set exactly when the
relay target is `ON`, the LED bit is set when the LED target is `ON` and clear
when it is `OFF`. A `LEDPower` call executes `RPOF_PORT ^= LED` only with the
target `FLASH`, and `Relay` never inverts a bit. -/
theorem C18_outputs_follow_targets (es : List Event) :
    ((Relay (LEDPower (run powerUp es))).RelayStatus = (run powerUp es).RelayStatus ∧
      (Relay (LEDPower (run powerUp es))).LEDStatus = (run powerUp es).LEDStatus) ∧
    ((Relay (LEDPower (run powerUp es))).port.testBit RELAY_BIT = true ↔
      (Relay (LEDPower (run powerUp es))).RelayStatus = ON) ∧
    ((Relay (LEDPower (run powerUp es))).LEDStatus = ON →
      (Relay (LEDPower (run powerUp es))).port.testBit LED_BIT = true) ∧
    ((Relay (LEDPower (run powerUp es))).LEDStatus = OFF →
      (Relay (LEDPower (run powerUp es))).port.testBit LED_BIT = false) ∧
    (∀ m : Nat, PortOp.toggleBits m ∈ LEDPowerWrites (run powerUp es) →
      (run powerUp es).LEDStatus = FLASH) ∧
    (∀ m : Nat, PortOp.toggleBits m ∉ RelayWrites (LEDPower (run powerUp es))) := by
  have h := (inv_reachable es).2
  have hL := LEDPower_post _ h
  have hLi : OutInv (LEDPower (run powerUp es)) := by
    refine ⟨by rw [hL.2.1]; exact h.1, by rw [hL.2.2.2.2.1]; exact h.2.1, ?_, ?_⟩
    · rw [hL.2.2.2.2.1, hL.2.2.2.2.2.1, hL.2.2.2.2.2.2]
      exact h.2.2.1
    · intro _
      exact ⟨hL.2.2.1, hL.2.2.2.1⟩
  have hR := Relay_post _ hLi
  refine ⟨⟨hR.2.1.trans hL.2.2.2.2.1, hR.2.2.2.1.trans hL.2.1⟩, hR.2.2.1, ?_, ?_, ?_, ?_⟩
  · intro e
    rw [hR.2.2.2.2.2]
    exact hL.2.2.1 (by rw [← hR.2.2.2.1]; exact e)
  · intro e
    rw [hR.2.2.2.2.2]
    exact hL.2.2.2.1 (by rw [← hR.2.2.2.1]; exact e)
  · intro m hm
    unfold LEDPowerWrites at hm
    split_ifs at hm with g1 g2 g3 g4 g5 <;> simp at hm
    exact g4
  · intro m hm
    unfold RelayWrites at hm
    split_ifs at hm <;> simp at hm

/-- C19. In every state reachable from power-up by iterations, with any
inputs, and ticks: the relay target is `ON` exactly when `StateMachine` is
`POWERON_WAIT`, `POWERON`, `POWEROFF_START`, `POWEROFF_WAIT` or `POWEROFF`; the
`SHTDOUT` bit of the port is set exactly when `StateMachine` is `POWEROFF_WAIT`
or `POWEROFF`; so in `IDLE` and `POWERON_START` the relay target is `OFF` and
the `SHTDOUT` bit is clear; and `StateMachine`, `LEDStatus` and `RelayStatus`
hold values of their enumerations. -/
theorem C19_outputs_function_of_state (es : List Event) :
    ((run powerUp es).RelayStatus = ON ↔
      ((run powerUp es).StateMachine = POWERON_WAIT ∨
       (run powerUp es).StateMachine = POWERON ∨
       (run powerUp es).StateMachine = POWEROFF_START ∨
       (run powerUp es).StateMachine = POWEROFF_WAIT ∨
       (run powerUp es).StateMachine = POWEROFF)) ∧
    ((run powerUp es).port.testBit SHTDOUT_BIT = true ↔
      ((run powerUp es).StateMachine = POWEROFF_WAIT ∨
       (run powerUp es).StateMachine = POWEROFF)) ∧
    ((run powerUp es).StateMachine = IDLE ∨ (run powerUp es).StateMachine = POWERON_START →
      (run powerUp es).RelayStatus = OFF ∧
      (run powerUp es).port.testBit SHTDOUT_BIT = false) ∧
    ((run powerUp es).StateMachine = IDLE ∨ (run powerUp es).StateMachine = POWERON_START ∨
      (run powerUp es).StateMachine = POWERON_WAIT ∨ (run powerUp es).StateMachine = POWERON ∨
      (run powerUp es).StateMachine = POWEROFF_START ∨
      (run powerUp es).StateMachine = POWEROFF_WAIT ∨
      (run powerUp es).StateMachine = POWEROFF) ∧
    ((run powerUp es).LEDStatus = OFF ∨ (run powerUp es).LEDStatus = ON ∨
      (run powerUp es).LEDStatus = FLASH) ∧
    ((run powerUp es).RelayStatus = OFF ∨ (run powerUp es).RelayStatus = ON) := by
  obtain ⟨h1, h2, h3, h4, _, _, _⟩ := (inv_reachable es).1
  have hl := (inv_reachable es).2.1
  simp only [IDLE, POWERON_START, POWERON_WAIT, POWERON, POWEROFF_START, POWEROFF_WAIT,
    POWEROFF, ON, OFF, FLASH] at *
  refine ⟨?_, ?_, ?_, ?_, ?_, ?_⟩
  · rw [h3]; omega
  · rw [h4]; omega
  · intro h
    constructor
    · have : ¬ (run powerUp es).RelayStatus = 1 := by rw [h3]; omega
      omega
    · have : ¬ (run powerUp es).port.testBit SHTDOUT_BIT = true := by rw [h4]; omega
      simpa using this
  · omega
  · omega
  · omega

/-! ## Interrupts inside a loop iteration -/

theorem irq_frame (k : Nat → Nat) (n : Nat) (s : State) :
    (irq k n s).StateMachine = s.StateMachine ∧
    (irq k n s).LEDStatus = s.LEDStatus ∧
    (irq k n s).RelayStatus = s.RelayStatus ∧
    (irq k n s).port = s.port ∧
    (irq k n s).shadowLEDStatus = s.shadowLEDStatus ∧
    (irq k n s).shadowRelayStatus = s.shadowRelayStatus := by
  have h := ticks_frame (k n) s
  have g := ticks_shadows (k n) s
  exact ⟨h.1, h.2.1, h.2.2.1, h.2.2.2, g.1, g.2⟩

theorem irq_noIrq (n : Nat) (s : State) : irq noIrq n s = s := rfl

/-- Without ticks inside the iteration, the iteration with interrupt points
is the iteration `mainLoop`. -/
theorem mainLoopIrq_noIrq (s : State) (i : Inputs) :
    mainLoopIrq noIrq s i = mainLoop s i := by
  have hL : ∀ t : State, LEDPowerIrq noIrq t = LEDPower t := by
    intro t
    simp only [LEDPowerIrq, LEDPower, irq_noIrq]
  have hR : ∀ t : State, RelayIrq noIrq t = Relay t := by
    intro t
    simp only [RelayIrq, Relay, irq_noIrq]
  have hP : ∀ t : State, powerRaspiOffIrq noIrq t = powerRaspiOff t := by
    intro t
    simp only [powerRaspiOffIrq, powerRaspiOff, irq_noIrq]
  have hS : ∀ (t : State) (b x y : Nat), sequencerIrq noIrq t b x y = sequencer t b x y := by
    intro t b x y
    simp only [sequencerIrq, sequencer, irq_noIrq, hP]
  simp only [mainLoopIrq, driversIrq, mainLoop, irq_noIrq, hL, hR, hS]

theorem irq_StateMachine (k : Nat → Nat) (n : Nat) (s : State) :
    (irq k n s).StateMachine = s.StateMachine := (irq_frame k n s).1

theorem irq_LEDStatus (k : Nat → Nat) (n : Nat) (s : State) :
    (irq k n s).LEDStatus = s.LEDStatus := (irq_frame k n s).2.1

theorem irq_RelayStatus (k : Nat → Nat) (n : Nat) (s : State) :
    (irq k n s).RelayStatus = s.RelayStatus := (irq_frame k n s).2.2.1

theorem irq_port (k : Nat → Nat) (n : Nat) (s : State) :
    (irq k n s).port = s.port := (irq_frame k n s).2.2.2.1

theorem irq_shadowLEDStatus (k : Nat → Nat) (n : Nat) (s : State) :
    (irq k n s).shadowLEDStatus = s.shadowLEDStatus := (irq_frame k n s).2.2.2.2.1

theorem irq_shadowRelayStatus (k : Nat → Nat) (n : Nat) (s : State) :
    (irq k n s).shadowRelayStatus = s.shadowRelayStatus := (irq_frame k n s).2.2.2.2.2

theorem LEDPowerIrq_frame (k : Nat → Nat) (s : State) :
    (LEDPowerIrq k s).StateMachine = s.StateMachine ∧
    (LEDPowerIrq k s).RelayStatus = s.RelayStatus ∧
    (LEDPowerIrq k s).shadowRelayStatus = s.shadowRelayStatus ∧
    (LEDPowerIrq k s).port.testBit SHTDOUT_BIT = s.port.testBit SHTDOUT_BIT := by
  unfold LEDPowerIrq
  simp only []
  split_ifs <;>
    simp [irq_StateMachine, irq_RelayStatus, irq_port, irq_shadowRelayStatus, SHTDOUT_BIT, LED,
      not8, Nat.testBit_lor, Nat.testBit_land, Nat.testBit_xor, bit1_of_1, bit1_of_254]

theorem RelayIrq_frame (k : Nat → Nat) (s : State) :
    (RelayIrq k s).StateMachine = s.StateMachine ∧
    (RelayIrq k s).port.testBit SHTDOUT_BIT = s.port.testBit SHTDOUT_BIT ∧
    (s.RelayStatus = ON → (RelayIrq k s).RelayStatus = ON) := by
  unfold RelayIrq
  simp only []
  split_ifs <;>
    simp_all [irq_StateMachine, irq_RelayStatus, irq_port, SHTDOUT_BIT, RELAY, not8,
      Nat.testBit_lor, Nat.testBit_land, bit1_of_4, bit1_of_251]

/-- The drivers and the interrupts taken before the `switch` leave the state
variable, the `SHTDOUT` bit and a relay target `ON` as they were. -/
theorem driversIrq_frame (k : Nat → Nat) (s : State) :
    (driversIrq k s).StateMachine = s.StateMachine ∧
    (driversIrq k s).port.testBit SHTDOUT_BIT = s.port.testBit SHTDOUT_BIT ∧
    (s.RelayStatus = ON → (driversIrq k s).RelayStatus = ON) := by
  have hL := LEDPowerIrq_frame k (irq k 0 s)
  have hR := RelayIrq_frame k (irq k 5 (LEDPowerIrq k (irq k 0 s)))
  unfold driversIrq
  refine ⟨?_, ?_, ?_⟩
  · rw [irq_StateMachine, hR.1, irq_StateMachine, hL.1, irq_StateMachine]
  · rw [irq_port, hR.2.1, irq_port, hL.2.2.2, irq_port]
  · intro h
    rw [irq_RelayStatus]
    apply hR.2.2
    rw [irq_RelayStatus, hL.2.1, irq_RelayStatus]
    exact h

/-- Ticks never raise a countdown that holds a non-negative 16-bit value. -/
theorem ticks_OFFTimer_range (m : Nat) (s : State)
    (h : 0 ≤ s.OFFTimer ∧ s.OFFTimer ≤ 32767) :
    0 ≤ (ticks m s).OFFTimer ∧ (ticks m s).OFFTimer ≤ s.OFFTimer := by
  induction m with
  | zero => exact ⟨h.1, le_rfl⟩
  | succ m ih =>
    rw [ticks_succ, (TIMERA0_ISR_timer (ticks m s)).1]
    by_cases g : (ticks m s).OFFTimer ≠ 0 ∧ (ticks m s).PrescalerTime = 0
    · rw [if_pos g, wrap16_small _ (by omega)]
      omega
    · rw [if_neg g]
      exact ih

/-- The countdown after the interrupts at two successive interrupt points
that are separated by the assignment to `StateMachine` only. -/
theorem irq_after_store (k : Nat → Nat) (p q c : Nat) (a : State) :
    (irq k q { irq k p a with StateMachine := c }).OFFTimer =
      (ticks (k p + k q) a).OFFTimer := by
  unfold irq
  rw [ticks_add]
  exact (ticks_congr (k q) { ticks (k p) a with StateMachine := c } (ticks (k p) a) rfl rfl).1

theorem sequencerIrq_pressed (k : Nat → Nat) (s : State) (sd1 sd2 : Nat) :
    (s.StateMachine = IDLE →
      sequencerIrq k s ON sd1 sd2 = { s with StateMachine := POWERON_START }) ∧
    (s.StateMachine = POWERON_START → sequencerIrq k s ON sd1 sd2 = s) ∧
    (s.StateMachine = POWERON →
      sequencerIrq k s ON sd1 sd2 = { s with StateMachine := POWEROFF_START }) ∧
    (s.StateMachine = POWEROFF_START → sequencerIrq k s ON sd1 sd2 = s) := by
  refine ⟨?_, ?_, ?_, ?_⟩ <;> intro h <;>
    simp [sequencerIrq, h, IDLE, POWERON_START, POWERON_WAIT, POWERON, POWEROFF_START, ON, OFF]

theorem sequencerIrq_released (k : Nat → Nat) (s : State) (sd1 sd2 : Nat) :
    (s.StateMachine = POWERON_START →
      sequencerIrq k s OFF sd1 sd2 =
        { irq k IRQ_START_ARMED
            { irq k 10 { irq k 9 { s with LEDStatus := FLASH } with RelayStatus := ON }
              with OFFTimer := SAFETY_START_TIME }
          with StateMachine := POWERON_WAIT }) ∧
    (s.StateMachine = POWEROFF_START →
      sequencerIrq k s OFF sd1 sd2 =
        { irq k IRQ_STOP_ARMED
            { irq k 20
                { irq k 19 { s with LEDStatus := FLASH } with
                  port := (irq k 19 { s with LEDStatus := FLASH }).port ||| SHTDOUT }
              with OFFTimer := SAFETY_STOP_TIME }
          with StateMachine := POWEROFF_WAIT }) := by
  refine ⟨?_, ?_⟩ <;> intro h <;>
    simp [sequencerIrq, h, IDLE, POWERON_START, POWERON_WAIT, POWERON, POWEROFF_START, ON, OFF]

theorem runIrq_cons (s : State) (it : IrqIter) (its : List IrqIter) :
    runIrq s (it :: its) = runIrq (mainLoopIrq it.irqs s it.inputs) its := rfl

/-- While the button is held, also with ticks inside the iterations, a
system in `IDLE` or `POWERON_START` is in `POWERON_START` as soon as one
iteration has run. -/
theorem runIrq_pressed_on (its : List IrqIter) : ∀ s : State, allPressedIrq its →
    (s.StateMachine = POWERON_START → (runIrq s its).StateMachine = POWERON_START) ∧
    (s.StateMachine = IDLE → 1 ≤ its.length →
      (runIrq s its).StateMachine = POWERON_START) := by
  induction its with
  | nil =>
    intro s _
    exact ⟨fun h => h, fun _ h => absurd h (by simp)⟩
  | cons it its ih =>
    intro s hp
    obtain ⟨hb, hp2⟩ := hp
    have hD := (driversIrq_frame it.irqs s).1
    have hS := sequencerIrq_pressed it.irqs (driversIrq it.irqs s) it.inputs.sd1 it.inputs.sd2
    have ih2 := ih (mainLoopIrq it.irqs s it.inputs) hp2
    refine ⟨fun h => ?_, fun h _ => ?_⟩
    · rw [runIrq_cons]
      apply ih2.1
      unfold mainLoopIrq
      rw [irq_StateMachine, hb, hS.2.1 (by rw [hD]; exact h), hD]
      exact h
    · rw [runIrq_cons]
      apply ih2.1
      unfold mainLoopIrq
      rw [irq_StateMachine, hb, hS.1 (by rw [hD]; exact h)]

/-- While the button is held, also with ticks inside the iterations, a
system in `POWERON` or `POWEROFF_START` with the relay target `ON` is in
`POWEROFF_START` as soon as one iteration has run; the relay target stays `ON`
and the `SHTDOUT` bit is not written. -/
theorem runIrq_pressed_off (its : List IrqIter) : ∀ s : State, allPressedIrq its →
    s.RelayStatus = ON →
    (s.StateMachine = POWEROFF_START ∨ (s.StateMachine = POWERON ∧ 1 ≤ its.length)) →
    (runIrq s its).StateMachine = POWEROFF_START ∧ (runIrq s its).RelayStatus = ON ∧
    (runIrq s its).port.testBit SHTDOUT_BIT = s.port.testBit SHTDOUT_BIT := by
  induction its with
  | nil =>
    intro s _ hr h
    rcases h with h | ⟨_, h⟩
    · exact ⟨h, hr, rfl⟩
    · exact absurd h (by simp)
  | cons it its ih =>
    intro s hp hr h
    obtain ⟨hb, hp2⟩ := hp
    have hD := driversIrq_frame it.irqs s
    have hS := sequencerIrq_pressed it.irqs (driversIrq it.irqs s) it.inputs.sd1 it.inputs.sd2
    have hrel := hD.2.2 hr
    have hm : (mainLoopIrq it.irqs s it.inputs).StateMachine = POWEROFF_START ∧
        (mainLoopIrq it.irqs s it.inputs).RelayStatus = ON ∧
        (mainLoopIrq it.irqs s it.inputs).port.testBit SHTDOUT_BIT =
          s.port.testBit SHTDOUT_BIT := by
      unfold mainLoopIrq
      rw [irq_StateMachine, irq_RelayStatus, irq_port, hb]
      rcases h with h | ⟨h, _⟩
      · rw [hS.2.2.2 (by rw [hD.1]; exact h)]
        exact ⟨by rw [hD.1]; exact h, hrel, hD.2.1⟩
      · rw [hS.2.2.1 (by rw [hD.1]; exact h)]
        exact ⟨rfl, hrel, hD.2.1⟩
    have ih2 := ih (mainLoopIrq it.irqs s it.inputs) hp2 hm.2.1 (Or.inl hm.1)
    rw [runIrq_cons]
    rw [hm.2.2] at ih2
    exact ih2

/-- A countdown stored as `v` and followed by the interrupts at two
interrupt points with only the assignment to `StateMachine` between them:
at the end it holds what those ticks have left of `v`. -/
theorem armed_end (k : Nat → Nat) (p q c : Nat) (a : State) (v : Int)
    (hv : 0 ≤ v ∧ v ≤ 32767) :
    (∃ a2 : State, a2.OFFTimer = v ∧
      (irq k q { irq k p { a with OFFTimer := v } with StateMachine := c }).OFFTimer =
        (ticks (k p + k q) a2).OFFTimer) ∧
    (0 ≤ (irq k q { irq k p { a with OFFTimer := v } with StateMachine := c }).OFFTimer ∧
      (irq k q { irq k p { a with OFFTimer := v } with StateMachine := c }).OFFTimer ≤ v) ∧
    (k p = 0 → k q = 0 →
      (irq k q { irq k p { a with OFFTimer := v } with StateMachine := c }).OFFTimer = v) := by
  have hO := irq_after_store k p q c { a with OFFTimer := v }
  have hR := ticks_OFFTimer_range (k p + k q) { a with OFFTimer := v } hv
  refine ⟨⟨{ a with OFFTimer := v }, rfl, hO⟩, ?_, ?_⟩
  · rw [hO]
    exact hR
  · intro e1 e2
    rw [hO, e1, e2]
    rfl

theorem wrap16_fits (x : Int) : fits16 (wrap16 x) := by
  unfold fits16 wrap16
  omega

theorem ticks_prescaler_fits (m : Nat) (s : State) (h : fits16 s.PrescalerTime) :
    fits16 (ticks m s).PrescalerTime := by
  induction m with
  | zero => exact h
  | succ m ih =>
    rw [ticks_succ, (TIMERA0_ISR_timer (ticks m s)).2]
    split_ifs
    · exact wrap16_fits _
    · exact wrap16_fits _
    · exact ih

/-! ## Power-on and shutdown requests with interrupts inside the iterations -/

/-- C1, refuted as stated: from power-up, one iteration with the button
pressed and then the releasing iteration, with a single tick at the interrupt
point after `OFFTimer = SAFETY_START_TIME`. The prescaler is 0, so that tick
reloads it and decrements the countdown: at the end of the releasing iteration
`StateMachine = POWERON_WAIT` and `OFFTimer = 199`, not 200. -/
theorem C1_counterexample :
    powerUp.StateMachine = IDLE ∧ powerUp.LEDStatus = OFF ∧ powerUp.RelayStatus = OFF ∧
    powerUp.OFFTimer = 0 ∧
    allPressedIrq [⟨pressedStopped, noIrq⟩] ∧
    readPushbutton releasedStopped.pb1 releasedStopped.pb2 = OFF ∧
    (mainLoopIrq (oneIrqAt IRQ_START_ARMED) (runIrq powerUp [⟨pressedStopped, noIrq⟩])
      releasedStopped).StateMachine = POWERON_WAIT ∧
    (mainLoopIrq (oneIrqAt IRQ_START_ARMED) (runIrq powerUp [⟨pressedStopped, noIrq⟩])
      releasedStopped).OFFTimer = 199 ∧
    ¬ ((mainLoopIrq (oneIrqAt IRQ_START_ARMED) (runIrq powerUp [⟨pressedStopped, noIrq⟩])
      releasedStopped).OFFTimer = SAFETY_START_TIME) := by
  decide

/-- C1, amended. From any state with `StateMachine = IDLE` (the power-up
state is one), `n ≥ 1` loop iterations that read the button as pressed and then
one that reads it as released, with any number of ticks at every interrupt
point between and inside the iterations, end with `StateMachine = POWERON_WAIT`,
`RelayStatus = ON` and `LEDStatus = FLASH`. The releasing iteration stores
`OFFTimer = SAFETY_START_TIME = 200`; at its end `OFFTimer` is what the ticks
taken after that store have left of 200, a value in `[0, 200]`, and it is 200
when no tick falls between the store and the end of the iteration. -/
theorem C1_power_on_request (s : State) (its : List IrqIter) (n : Nat) (r : IrqIter)
    (hs : s.StateMachine = IDLE) (hn : 1 ≤ n) (hc : its.length = n)
    (hp : allPressedIrq its) (hr : readPushbutton r.inputs.pb1 r.inputs.pb2 = OFF) :
    (mainLoopIrq r.irqs (runIrq s its) r.inputs).StateMachine = POWERON_WAIT ∧
    (mainLoopIrq r.irqs (runIrq s its) r.inputs).RelayStatus = ON ∧
    (mainLoopIrq r.irqs (runIrq s its) r.inputs).LEDStatus = FLASH ∧
    SAFETY_START_TIME = 200 ∧
    (∃ a : State, a.OFFTimer = SAFETY_START_TIME ∧
      (mainLoopIrq r.irqs (runIrq s its) r.inputs).OFFTimer =
        (ticks (r.irqs IRQ_START_ARMED + r.irqs IRQ_LOOP_END) a).OFFTimer) ∧
    (0 ≤ (mainLoopIrq r.irqs (runIrq s its) r.inputs).OFFTimer ∧
      (mainLoopIrq r.irqs (runIrq s its) r.inputs).OFFTimer ≤ SAFETY_START_TIME) ∧
    (r.irqs IRQ_START_ARMED = 0 → r.irqs IRQ_LOOP_END = 0 →
      (mainLoopIrq r.irqs (runIrq s its) r.inputs).OFFTimer = SAFETY_START_TIME) := by
  have h1 : (runIrq s its).StateMachine = POWERON_START :=
    (runIrq_pressed_on its s hp).2 hs (by omega)
  have hD := (driversIrq_frame r.irqs (runIrq s its)).1
  have hS := (sequencerIrq_released r.irqs (driversIrq r.irqs (runIrq s its))
    r.inputs.sd1 r.inputs.sd2).1 (by rw [hD]; exact h1)
  have hA := armed_end r.irqs IRQ_START_ARMED IRQ_LOOP_END POWERON_WAIT
    (irq r.irqs 10 { irq r.irqs 9 { driversIrq r.irqs (runIrq s its) with
        LEDStatus := FLASH } with RelayStatus := ON }) SAFETY_START_TIME (by decide)
  unfold mainLoopIrq
  rw [hr, hS]
  refine ⟨?_, ?_, ?_, rfl, hA.1, hA.2.1, hA.2.2⟩
  · rw [irq_StateMachine]
  · rw [irq_RelayStatus]
    simp [irq_RelayStatus]
  · rw [irq_LEDStatus]
    simp [irq_LEDStatus]

/-- C1 (amended) at the power-up state: the button held over two iterations
with ticks inside the first, then the release with two ticks at the top of the
loop and none after the store. -/
theorem C1_power_on_request_witness :
    (mainLoopIrq (fun n => if n = 0 then 2 else 0) (runIrq powerUp holdButtonIrq)
      releasedStopped).StateMachine = POWERON_WAIT ∧
    (mainLoopIrq (fun n => if n = 0 then 2 else 0) (runIrq powerUp holdButtonIrq)
      releasedStopped).RelayStatus = ON ∧
    (mainLoopIrq (fun n => if n = 0 then 2 else 0) (runIrq powerUp holdButtonIrq)
      releasedStopped).LEDStatus = FLASH ∧
    (mainLoopIrq (fun n => if n = 0 then 2 else 0) (runIrq powerUp holdButtonIrq)
      releasedStopped).OFFTimer = SAFETY_START_TIME :=
  have h := C1_power_on_request powerUp holdButtonIrq 2
    ⟨releasedStopped, fun n => if n = 0 then 2 else 0⟩ rfl (by decide) rfl (by decide) rfl
  ⟨h.1, h.2.1, h.2.2.1, h.2.2.2.2.2.2 rfl rfl⟩

/-- C2, refuted as stated: from `poweredOn`, one iteration with the button
pressed and then the releasing iteration, with a single tick at the interrupt
point after `OFFTimer = SAFETY_STOP_TIME`. The prescaler is 0, so that tick
reloads it and decrements the countdown: at the end of the releasing iteration
`StateMachine = POWEROFF_WAIT` and `OFFTimer = 199`, not 200. -/
theorem C2_counterexample :
    poweredOn.StateMachine = POWERON ∧ poweredOn.RelayStatus = ON ∧
    poweredOn.OFFTimer = 0 ∧
    allPressedIrq [⟨pressedRunning, noIrq⟩] ∧
    readPushbutton releasedRunning.pb1 releasedRunning.pb2 = OFF ∧
    (mainLoopIrq (oneIrqAt IRQ_STOP_ARMED) (runIrq poweredOn [⟨pressedRunning, noIrq⟩])
      releasedRunning).StateMachine = POWEROFF_WAIT ∧
    (mainLoopIrq (oneIrqAt IRQ_STOP_ARMED) (runIrq poweredOn [⟨pressedRunning, noIrq⟩])
      releasedRunning).OFFTimer = 199 ∧
    ¬ ((mainLoopIrq (oneIrqAt IRQ_STOP_ARMED) (runIrq poweredOn [⟨pressedRunning, noIrq⟩])
      releasedRunning).OFFTimer = SAFETY_STOP_TIME) := by
  decide

/-- C2, amended. From any state with `StateMachine = POWERON` and the relay
target `ON`, with any number of ticks at every interrupt point between and
inside the iterations: after `n ≥ 1` iterations that read the button as
pressed the state is `POWEROFF_START`, the relay target is `ON` and the
`SHTDOUT` bit is as it was on entry (it has not been written yet); one more
iteration that reads the button as released gives
`StateMachine = POWEROFF_WAIT`, `LEDStatus = FLASH`, the `SHTDOUT` bit set and
the relay target still `ON`. The releasing iteration stores
`OFFTimer = SAFETY_STOP_TIME = 200`; at its end `OFFTimer` is what the ticks
taken after that store have left of 200, a value in `[0, 200]`, and it is 200
when no tick falls between the store and the end of the iteration. -/
theorem C2_shutdown_request (s : State) (its : List IrqIter) (n : Nat) (r : IrqIter)
    (hs : s.StateMachine = POWERON) (hrel : s.RelayStatus = ON)
    (hn : 1 ≤ n) (hc : its.length = n)
    (hp : allPressedIrq its) (hr : readPushbutton r.inputs.pb1 r.inputs.pb2 = OFF) :
    ((runIrq s its).StateMachine = POWEROFF_START ∧
     (runIrq s its).port.testBit SHTDOUT_BIT = s.port.testBit SHTDOUT_BIT ∧
     (runIrq s its).RelayStatus = ON) ∧
    (mainLoopIrq r.irqs (runIrq s its) r.inputs).StateMachine = POWEROFF_WAIT ∧
    (mainLoopIrq r.irqs (runIrq s its) r.inputs).LEDStatus = FLASH ∧
    (mainLoopIrq r.irqs (runIrq s its) r.inputs).port.testBit SHTDOUT_BIT = true ∧
    (mainLoopIrq r.irqs (runIrq s its) r.inputs).RelayStatus = ON ∧
    SAFETY_STOP_TIME = 200 ∧
    (∃ a : State, a.OFFTimer = SAFETY_STOP_TIME ∧
      (mainLoopIrq r.irqs (runIrq s its) r.inputs).OFFTimer =
        (ticks (r.irqs IRQ_STOP_ARMED + r.irqs IRQ_LOOP_END) a).OFFTimer) ∧
    (0 ≤ (mainLoopIrq r.irqs (runIrq s its) r.inputs).OFFTimer ∧
      (mainLoopIrq r.irqs (runIrq s its) r.inputs).OFFTimer ≤ SAFETY_STOP_TIME) ∧
    (r.irqs IRQ_STOP_ARMED = 0 → r.irqs IRQ_LOOP_END = 0 →
      (mainLoopIrq r.irqs (runIrq s its) r.inputs).OFFTimer = SAFETY_STOP_TIME) := by
  have h1 := runIrq_pressed_off its s hp hrel (Or.inr ⟨hs, by omega⟩)
  have hD := driversIrq_frame r.irqs (runIrq s its)
  have hS := (sequencerIrq_released r.irqs (driversIrq r.irqs (runIrq s its))
    r.inputs.sd1 r.inputs.sd2).2 (by rw [hD.1]; exact h1.1)
  have hA := armed_end r.irqs IRQ_STOP_ARMED IRQ_LOOP_END POWEROFF_WAIT
    (irq r.irqs 20
      { irq r.irqs 19 { driversIrq r.irqs (runIrq s its) with LEDStatus := FLASH } with
        port := (irq r.irqs 19 { driversIrq r.irqs (runIrq s its) with
          LEDStatus := FLASH }).port ||| SHTDOUT }) SAFETY_STOP_TIME (by decide)
  refine ⟨⟨h1.1, h1.2.2, h1.2.1⟩, ?_⟩
  unfold mainLoopIrq
  rw [hr, hS]
  refine ⟨?_, ?_, ?_, ?_, rfl, hA.1, hA.2.1, hA.2.2⟩
  · rw [irq_StateMachine]
  · rw [irq_LEDStatus]
    simp [irq_LEDStatus]
  · rw [irq_port]
    simp [irq_port, SHTDOUT_BIT, SHTDOUT, Nat.testBit_lor, bit1_of_2]
  · rw [irq_RelayStatus]
    simp only [irq_RelayStatus]
    exact hD.2.2 h1.2.1

/-- C2 (amended) at `poweredOn`: the button held over two iterations with
ticks inside the first, then the release with two ticks at the top of the loop
and none after the store. -/
theorem C2_shutdown_request_witness :
    ((runIrq poweredOn holdButtonIrq).StateMachine = POWEROFF_START ∧
     (runIrq poweredOn holdButtonIrq).port.testBit SHTDOUT_BIT =
       poweredOn.port.testBit SHTDOUT_BIT ∧
     (runIrq poweredOn holdButtonIrq).RelayStatus = ON) ∧
    (mainLoopIrq (fun n => if n = 0 then 2 else 0) (runIrq poweredOn holdButtonIrq)
      releasedRunning).StateMachine = POWEROFF_WAIT ∧
    (mainLoopIrq (fun n => if n = 0 then 2 else 0) (runIrq poweredOn holdButtonIrq)
      releasedRunning).port.testBit SHTDOUT_BIT = true ∧
    (mainLoopIrq (fun n => if n = 0 then 2 else 0) (runIrq poweredOn holdButtonIrq)
      releasedRunning).RelayStatus = ON ∧
    (mainLoopIrq (fun n => if n = 0 then 2 else 0) (runIrq poweredOn holdButtonIrq)
      releasedRunning).OFFTimer = SAFETY_STOP_TIME :=
  have h := C2_shutdown_request poweredOn holdButtonIrq 2
    ⟨releasedRunning, fun n => if n = 0 then 2 else 0⟩ (by decide) (by decide)
    (by decide) rfl (by decide) rfl
  ⟨h.1, h.2.1, h.2.2.2.1, h.2.2.2.2.1, h.2.2.2.2.2.2.2.2 rfl rfl⟩

/-! ## The grace delay with interrupts inside the arming iteration -/

end ERPOf
